import Mathlib

/-!
Shallow embedding of the x402 facilitator core (tzapac-x402-permit2):
the V1 `eip155`/`exact` scheme facilitator (pre-flight validation, signature
classification, settlement call construction), the compliance gate, and the
CAIP-2 chain identifier, together with theorems checking the specification's
claims against this embedding.

Machine integers are modelled as `Nat`; the source only compares, adds small
constants, and range-checks them, and every explicit width bound (uint160,
uint48) is reproduced as an explicit comparison against `2 ^ w - 1` exactly
where the source checks it.  Byte strings are `List Nat`.  Ambient effects
(the clock, RPC reads, transaction submission, the remote compliance provider,
cryptographic primitives from the `alloy` library) are passed explicitly as
environments / primitive bundles, so that every definition is executable.
-/

namespace X402

/-- EVM address (20 bytes), modelled abstractly (the source only ever compares
addresses for equality). -/
abbrev Address := Nat

/-- Unsigned 256-bit integer (`alloy` `U256`); values are only compared here,
so `Nat` is a faithful model for in-range values. -/
abbrev U256 := Nat

/-- Word of 32 bytes (`alloy` `B256`). -/
abbrev B256 := Nat

/-- Raw byte string (`alloy` `Bytes`). -/
abbrev Bytes := List Nat

/-- Unix timestamp in seconds (`x402_types::timestamp::UnixTimestamp`, a
seconds-since-epoch wrapper compared and shifted by small constants). -/
abbrev UnixTimestamp := Nat

/-- Transaction hash. -/
abbrev TxHash := Nat

/-- Numeric EVM chain id (`Eip155ChainReference`); `inner()` is the number
itself. -/
abbrev Eip155ChainReference := Nat

/-- Errors of `x402_types::proto::PaymentVerificationError` as used by the
verification path (`facilitator.rs`). -/
inductive PaymentVerificationError where
  | invalidFormat (msg : String)
  | unsupportedChain
  | chainIdMismatch
  | assetMismatch
  | recipientMismatch
  | invalidPaymentAmount
  | early
  | expired
  | insufficientFunds
  | invalidSignature (msg : String)
  | transactionSimulation (msg : String)
  | complianceFailed (msg : String)
deriving DecidableEq, Repr

/-- Errors of `Eip155ExactError` (facilitator.rs, bottom).  Transport and
pending-transaction failures are collapsed to parameterless constructors:
the claims under study never inspect their payloads. -/
inductive Eip155ExactError where
  | transport
  | pendingTransaction
  | transactionReverted (tx : TxHash)
  | contractCall (msg : String)
  | paymentVerification (e : PaymentVerificationError)
deriving DecidableEq, Repr

/-! ## Time-window checks (facilitator.rs `assert_time` and friends)

`UnixTimestamp::now()` is ambient; each predicate takes `now` explicitly. -/

/-- Validates that the current time is within the `validAfter`/`validBefore`
bounds, with the 6-second grace buffer on expiration (facilitator.rs,
`assert_time`). -/
def assert_time (now valid_after valid_before : UnixTimestamp) :
    Except PaymentVerificationError Unit :=
  if valid_before < now + 6 then
    Except.error PaymentVerificationError.expired
  else if valid_after > now then
    Except.error PaymentVerificationError.early
  else
    Except.ok ()

/-- Permit2 AllowanceTransfer time check (facilitator.rs,
`assert_permit2_time`). -/
def assert_permit2_time (now sig_deadline expiration : UnixTimestamp) :
    Except PaymentVerificationError Unit :=
  if sig_deadline < now + 6 then
    Except.error PaymentVerificationError.expired
  else if expiration < now + 6 then
    Except.error PaymentVerificationError.expired
  else
    Except.ok ()

/-- Permit2 SignatureTransfer (witness) time check (facilitator.rs,
`assert_permit2_witness_time`). -/
def assert_permit2_witness_time (now deadline valid_after : UnixTimestamp) :
    Except PaymentVerificationError Unit :=
  if deadline < now + 6 then
    Except.error PaymentVerificationError.expired
  else if valid_after > now then
    Except.error PaymentVerificationError.early
  else
    Except.ok ()

/-- Static equality check between the declared payload value and the required
amount (facilitator.rs, `assert_enough_value`). -/
def assert_enough_value (sent max_amount_required : U256) :
    Except PaymentVerificationError Unit :=
  if sent ≠ max_amount_required then
    Except.error PaymentVerificationError.invalidPaymentAmount
  else
    Except.ok ()

/-! ## Well-known addresses (facilitator.rs constants) -/

/-- EIP-6492 validator contract. -/
def VALIDATOR_ADDRESS : Address := 0xdAcD51A54883eb67D95FAEb2BBfdC4a9a6BD2a3B

/-- Canonical Permit2 contract. -/
def PERMIT2_ADDRESS : Address := 0x000000000022D473030F116dDEE9F6B43aC78BA3

/-- Default x402 Permit2 proxy (overridable by environment variable; the
effective proxy address is therefore passed explicitly below). -/
def X402_EXACT_PERMIT2_PROXY_ADDRESS : Address := 0xB6FD384A0626BfeF85f3dBaf5223Dd964684B09E

/-- Multicall3 contract (alloy default). -/
def MULTICALL3_ADDRESS : Address := 0xcA11bde05977b3631167028862bE2a173976CA11

/-! ## CAIP-2 chain id (x402-types `chain_id.rs`) -/

/-- CAIP-2 chain identifier (`chain_id.rs`, `ChainId`).  `namespace` is a Lean
keyword, hence the trailing underscore. -/
structure ChainId where
  namespace_ : String
  reference : String
deriving DecidableEq, Repr

/-- Conversion `Eip155ChainReference → ChainId` (namespace `eip155`, decimal
reference), as produced by the `eip155` chain crate. -/
def chain_to_chain_id (chain : Eip155ChainReference) : ChainId :=
  ⟨"eip155", toString chain⟩

/-! ## Wire-format payload types (v1_eip155_exact `types.rs`) -/

/-- ERC-3009 authorization data (`types.rs`, `ExactEvmPayloadAuthorization`).
`from` is a Lean keyword, hence `from_`. -/
structure ExactEvmPayloadAuthorization where
  from_ : Address
  to_ : Address
  value : U256
  valid_after : UnixTimestamp
  valid_before : UnixTimestamp
  nonce : B256
deriving DecidableEq, Repr

/-- Permit2 AllowanceTransfer details (`types.rs`, `Permit2Details`). -/
structure Permit2Details where
  token : Address
  amount : U256
  expiration : Nat
  nonce : Nat
deriving DecidableEq, Repr

/-- Permit2 PermitSingle (`types.rs`, `Permit2PermitSingle`). -/
structure Permit2PermitSingle where
  details : Permit2Details
  spender : Address
  sig_deadline : Nat
deriving DecidableEq, Repr

/-- Permit2 AllowanceTransfer wire payload (`types.rs`, `Permit2Payload`). -/
structure Permit2Payload where
  owner : Address
  permit_single : Permit2PermitSingle
  signature : Bytes
deriving DecidableEq, Repr

/-- Permit2 token permissions (`types.rs`, `Permit2TokenPermissions`). -/
structure Permit2TokenPermissions where
  token : Address
  amount : U256
deriving DecidableEq, Repr

/-- Permit2 witness data (`types.rs`, `Permit2Witness`). -/
structure Permit2Witness where
  to_ : Address
  valid_after : UnixTimestamp
  extra : Bytes
deriving DecidableEq, Repr

/-- Permit2 SignatureTransfer wire payload (`types.rs`,
`Permit2Authorization`). -/
structure Permit2Authorization where
  from_ : Address
  permitted : Permit2TokenPermissions
  spender : Address
  nonce : U256
  deadline : UnixTimestamp
  witness : Permit2Witness
deriving DecidableEq, Repr

/-- Scheme-specific payload carrying exactly one authorization family
(`types.rs`, `ExactEvmPayload`). -/
structure ExactEvmPayload where
  signature : Option Bytes
  authorization : Option ExactEvmPayloadAuthorization
  permit2 : Option Permit2Payload
  permit2_authorization : Option Permit2Authorization
deriving DecidableEq, Repr

/-- V1 payment payload wrapper; of `v1::PaymentPayload` only the fields the
facilitator reads (`network`, `payload`) are modelled. -/
structure PaymentPayload where
  network : String
  payload : ExactEvmPayload
deriving DecidableEq, Repr

/-- EIP-712 `{name, version}` override (`types.rs`,
`PaymentRequirementsExtra`). -/
structure PaymentRequirementsExtra where
  name : String
  version : String
deriving DecidableEq, Repr

/-- V1 payment requirements; of `v1::PaymentRequirements` only the fields the
facilitator reads (`network`, `pay_to`, `asset`, `max_amount_required`,
`extra`) are modelled. -/
structure PaymentRequirements where
  network : String
  pay_to : Address
  asset : Address
  max_amount_required : U256
  extra : Option PaymentRequirementsExtra
deriving DecidableEq, Repr

/-! ## Validated payment contexts (facilitator.rs) -/

/-- Validated ERC-3009 payment (facilitator.rs, `ExactEvmPayment`). -/
structure ExactEvmPayment where
  from_ : Address
  to_ : Address
  value : U256
  valid_after : UnixTimestamp
  valid_before : UnixTimestamp
  nonce : B256
  signature : Bytes
deriving DecidableEq, Repr

/-- Validated Permit2 AllowanceTransfer payment (facilitator.rs,
`Permit2Payment`). -/
structure Permit2Payment where
  owner : Address
  spender : Address
  pay_to : Address
  token : Address
  amount : U256
  expiration : Nat
  nonce : Nat
  sig_deadline : Nat
  signature : Bytes
  transfer_amount : U256
deriving DecidableEq, Repr

/-- Validated Permit2 SignatureTransfer payment (facilitator.rs,
`Permit2WitnessPayment`). -/
structure Permit2WitnessPayment where
  from_ : Address
  spender : Address
  token : Address
  amount : U256
  nonce : U256
  deadline : UnixTimestamp
  pay_to : Address
  valid_after : UnixTimestamp
  extra : Bytes
  signature : Bytes
  transfer_amount : U256
deriving DecidableEq, Repr

/-- EIP-712 domain (alloy `Eip712Domain`); each field is optional exactly as
in the standard. -/
structure Eip712Domain where
  name : Option String
  version : Option String
  chain_id : Option Nat
  verifying_contract : Option Address
deriving DecidableEq, Repr

/-- Internal sum type produced by pre-flight validation (facilitator.rs,
`PaymentContext`).  The contract instance is reduced to its address. -/
inductive PaymentContext where
  | eip3009 (contract : Address) (payment : ExactEvmPayment) (domain : Eip712Domain)
  | permit2 (contract : Address) (payment : Permit2Payment) (domain : Eip712Domain)
  | permit2Witness (contract : Address) (payment : Permit2WitnessPayment) (domain : Eip712Domain)
deriving DecidableEq, Repr

/-- Recipient of the enforced authorization inside a validated context:
the ERC-3009 `to`, or the `pay_to` carried by a Permit2 payment. -/
def PaymentContext.recipient : PaymentContext → Address
  | .eip3009 _ payment _ => payment.to_
  | .permit2 _ payment _ => payment.pay_to
  | .permit2Witness _ payment _ => payment.pay_to

/-! ## Read-only chain environment

RPC reads performed during validation (`balanceOf`, `allowance`, `name()`,
`version()`) are modelled as total functions: transport failures are outside
the validation logic under study. -/

/-- Read-only RPC environment: token queries keyed by token address. -/
structure ChainEnv where
  balance_of : Address → Address → U256
  allowance : Address → Address → Address → U256
  token_name : Address → String
  token_version : Address → String

/-- On-chain balance check (facilitator.rs, `assert_enough_balance`). -/
def assert_enough_balance (env : ChainEnv) (token sender : Address)
    (max_amount_required : U256) : Except PaymentVerificationError Unit :=
  if env.balance_of token sender < max_amount_required then
    Except.error PaymentVerificationError.insufficientFunds
  else
    Except.ok ()

/-- ERC-3009 token EIP-712 domain (facilitator.rs, `assert_domain`): name and
version from `requirements.extra` when present, otherwise fetched from the
token contract. -/
def assert_domain (env : ChainEnv) (chain : Eip155ChainReference)
    (asset_address : Address) (extra : Option PaymentRequirementsExtra) :
    Eip712Domain :=
  let name := match extra with
    | some e => e.name
    | none => env.token_name asset_address
  let version := match extra with
    | some e => e.version
    | none => env.token_version asset_address
  ⟨some name, some version, some chain, some asset_address⟩

/-- Permit2 AllowanceTransfer domain (facilitator.rs,
`assert_permit2_domain`): name "Permit2", version "1". -/
def assert_permit2_domain (chain : Eip155ChainReference) : Eip712Domain :=
  ⟨some "Permit2", some "1", some chain, some PERMIT2_ADDRESS⟩

/-- Permit2 SignatureTransfer domain (facilitator.rs,
`assert_permit2_witness_domain`): name + chainId + verifyingContract, no
version. -/
def assert_permit2_witness_domain (chain : Eip155ChainReference) : Eip712Domain :=
  ⟨some "Permit2", none, some chain, some PERMIT2_ADDRESS⟩

/-- Spender gating of the Permit2 AllowanceTransfer branch (facilitator.rs,
`assert_valid_payment`): with `allowed_spenders` given, true exactly when the
spender is in none of them (`!spenders.iter().any(..)`); with no list given,
false. -/
def spender_not_allowed (allowed_spenders : Option (List Address))
    (spender : Address) : Bool :=
  match allowed_spenders with
  | some spenders => decide (spender ∉ spenders)
  | none => false

/-- Pre-flight validation (facilitator.rs, `assert_valid_payment`).  Ambient
inputs are made explicit: `now` (the clock), `from_network_name` (the
well-known network registry behind `ChainId::from_network_name`) and
`proxy_address` (the value of `x402_exact_permit2_proxy_address()`). -/
def assert_valid_payment (env : ChainEnv) (now : UnixTimestamp)
    (from_network_name : String → Option ChainId)
    (proxy_address : Address) (chain : Eip155ChainReference)
    (payload : PaymentPayload) (requirements : PaymentRequirements)
    (allowed_spenders : Option (List Address)) :
    Except PaymentVerificationError PaymentContext :=
  let chain_id := chain_to_chain_id chain
  match from_network_name payload.network with
  | none => Except.error PaymentVerificationError.unsupportedChain
  | some payload_chain_id =>
    if payload_chain_id ≠ chain_id then
      Except.error PaymentVerificationError.chainIdMismatch
    else match from_network_name requirements.network with
    | none => Except.error PaymentVerificationError.unsupportedChain
    | some requirements_chain_id =>
      if requirements_chain_id ≠ chain_id then
        Except.error PaymentVerificationError.chainIdMismatch
      else match payload.payload.permit2_authorization with
      | some permit2_auth =>
        -- Coinbase-style Permit2 witness proxy flow.
        if permit2_auth.permitted.token ≠ requirements.asset then
          Except.error PaymentVerificationError.assetMismatch
        else if permit2_auth.spender ≠ proxy_address then
          Except.error (PaymentVerificationError.invalidFormat
            "permit2Authorization.spender must be the x402 Permit2 proxy")
        else if permit2_auth.witness.to_ ≠ requirements.pay_to then
          Except.error PaymentVerificationError.recipientMismatch
        else
          let amount_required := requirements.max_amount_required
          if permit2_auth.permitted.amount ≠ amount_required then
            Except.error PaymentVerificationError.invalidPaymentAmount
          else match assert_permit2_witness_time now permit2_auth.deadline
              permit2_auth.witness.valid_after with
          | Except.error e => Except.error e
          | Except.ok _ =>
            match assert_enough_balance env permit2_auth.permitted.token
                permit2_auth.from_ amount_required with
            | Except.error e => Except.error e
            | Except.ok _ =>
              -- Permit2 SignatureTransfer still requires ERC20 approval for Permit2.
              let allowance :=
                env.allowance permit2_auth.permitted.token permit2_auth.from_
                  PERMIT2_ADDRESS
              if allowance < amount_required then
                Except.error (PaymentVerificationError.transactionSimulation
                  "Permit2 ERC20 allowance is insufficient")
              else match payload.payload.signature with
              | none =>
                Except.error (PaymentVerificationError.invalidFormat
                  "Missing signature")
              | some signature =>
                let domain := assert_permit2_witness_domain chain
                Except.ok (PaymentContext.permit2Witness proxy_address
                  { from_ := permit2_auth.from_
                    spender := permit2_auth.spender
                    token := permit2_auth.permitted.token
                    amount := permit2_auth.permitted.amount
                    nonce := permit2_auth.nonce
                    deadline := permit2_auth.deadline
                    pay_to := permit2_auth.witness.to_
                    valid_after := permit2_auth.witness.valid_after
                    extra := permit2_auth.witness.extra
                    signature := signature
                    transfer_amount := amount_required } domain)
      | none => match payload.payload.permit2 with
        | some permit2 =>
          let permit_single := permit2.permit_single
          let details := permit_single.details
          if details.token ≠ requirements.asset then
            Except.error PaymentVerificationError.assetMismatch
          else if spender_not_allowed allowed_spenders permit_single.spender then
            Except.error PaymentVerificationError.recipientMismatch
          else match assert_permit2_time now permit_single.sig_deadline
              details.expiration with
          | Except.error e => Except.error e
          | Except.ok _ =>
            let amount_required := requirements.max_amount_required
            match assert_enough_value details.amount amount_required with
            | Except.error e => Except.error e
            | Except.ok _ =>
              match assert_enough_balance env details.token permit2.owner
                  amount_required with
              | Except.error e => Except.error e
              | Except.ok _ =>
                let domain := assert_permit2_domain chain
                Except.ok (PaymentContext.permit2 PERMIT2_ADDRESS
                  { owner := permit2.owner
                    spender := permit_single.spender
                    pay_to := requirements.pay_to
                    token := details.token
                    amount := details.amount
                    expiration := details.expiration
                    nonce := details.nonce
                    sig_deadline := permit_single.sig_deadline
                    signature := permit2.signature
                    transfer_amount := amount_required } domain)
        | none => match payload.payload.authorization with
          | some authorization =>
            if authorization.to_ ≠ requirements.pay_to then
              Except.error PaymentVerificationError.recipientMismatch
            else match assert_time now authorization.valid_after
                authorization.valid_before with
            | Except.error e => Except.error e
            | Except.ok _ =>
              let asset_address := requirements.asset
              let domain := assert_domain env chain asset_address requirements.extra
              let amount_required := requirements.max_amount_required
              match assert_enough_balance env asset_address authorization.from_
                  amount_required with
              | Except.error e => Except.error e
              | Except.ok _ =>
                match assert_enough_value authorization.value amount_required with
                | Except.error e => Except.error e
                | Except.ok _ =>
                  match payload.payload.signature with
                  | none =>
                    Except.error (PaymentVerificationError.invalidFormat
                      "Missing signature")
                  | some signature =>
                    Except.ok (PaymentContext.eip3009 asset_address
                      { from_ := authorization.from_
                        to_ := authorization.to_
                        value := authorization.value
                        valid_after := authorization.valid_after
                        valid_before := authorization.valid_before
                        nonce := authorization.nonce
                        signature := signature } domain)
          | none =>
            Except.error (PaymentVerificationError.invalidFormat
              "Missing authorization or permit2 payload")

/-! ## Bounded numeric coercions (facilitator.rs `permit2_amount`,
`permit2_u48`, `build_permit2_single_call`) -/

/-- Coerces a 256-bit amount to uint160 (facilitator.rs, `permit2_amount`).
The source extracts the three low 64-bit limbs after the guard, i.e. reduces
mod `2 ^ 192`; under the guard the value is below `2 ^ 160`, so the extraction
is exact. -/
def permit2_amount (amount : U256) : Except PaymentVerificationError Nat :=
  if amount > 2 ^ 160 - 1 then
    Except.error (PaymentVerificationError.invalidFormat
      "Permit2 amount exceeds uint160")
  else
    Except.ok (amount % 2 ^ 192)

/-- Constant `(1u64 << 48) - 1` (facilitator.rs, `PERMIT2_U48_MAX`). -/
def PERMIT2_U48_MAX : Nat := 2 ^ 48 - 1

/-- Coerces a 64-bit value to uint48, naming the offending field on overflow
(facilitator.rs, `permit2_u48`). -/
def permit2_u48 (value : Nat) (field : String) :
    Except PaymentVerificationError Nat :=
  if value > PERMIT2_U48_MAX then
    Except.error (PaymentVerificationError.invalidFormat
      ("Permit2 " ++ field ++ " exceeds uint48"))
  else
    Except.ok value

/-- On-chain Permit2 details struct (`IPermit2::PermitDetails`): amount is
uint160, expiration and nonce are uint48. -/
structure PermitDetails where
  token : Address
  amount : Nat
  expiration : Nat
  nonce : Nat
deriving DecidableEq, Repr

/-- On-chain Permit2 PermitSingle struct (`IPermit2::PermitSingle`). -/
structure PermitSingle where
  details : PermitDetails
  spender : Address
  sigDeadline : Nat
deriving DecidableEq, Repr

/-- On-chain token permissions (`X402ExactPermit2Proxy::TokenPermissions`). -/
structure TokenPermissions where
  token : Address
  amount : U256
deriving DecidableEq, Repr

/-- On-chain SignatureTransfer permit
(`X402ExactPermit2Proxy::PermitTransferFrom`). -/
structure PermitTransferFrom where
  permitted : TokenPermissions
  nonce : U256
  deadline : U256
deriving DecidableEq, Repr

/-- On-chain witness struct (`X402ExactPermit2Proxy::Witness`). -/
structure Witness where
  to_ : Address
  validAfter : U256
  extra : Bytes
deriving DecidableEq, Repr

/-- EIP-712 struct for ERC-3009 transfers (`TransferWithAuthorization`). -/
structure TransferWithAuthorization where
  from_ : Address
  to_ : Address
  value : U256
  validAfter : U256
  validBefore : U256
  nonce : B256
deriving DecidableEq, Repr

/-- Builds the on-chain `PermitSingle` from a validated Permit2 payment
(facilitator.rs, `build_permit2_single_call`). -/
def build_permit2_single_call (payment : Permit2Payment) :
    Except PaymentVerificationError PermitSingle :=
  match permit2_amount payment.amount with
  | Except.error e => Except.error e
  | Except.ok amount =>
    match permit2_u48 payment.expiration "expiration" with
    | Except.error e => Except.error e
    | Except.ok expiration =>
      match permit2_u48 payment.nonce "nonce" with
      | Except.error e => Except.error e
      | Except.ok nonce =>
        Except.ok
          { details :=
              { token := payment.token
                amount := amount
                expiration := expiration
                nonce := nonce }
            spender := payment.spender
            sigDeadline := payment.sig_deadline }

/-- Builds the on-chain SignatureTransfer permit (facilitator.rs,
`build_permit2_proxy_permit`). -/
def build_permit2_proxy_permit (payment : Permit2WitnessPayment) :
    PermitTransferFrom :=
  { permitted := { token := payment.token, amount := payment.amount }
    nonce := payment.nonce
    deadline := payment.deadline }

/-- Builds the on-chain witness struct (facilitator.rs,
`build_permit2_proxy_witness`). -/
def build_permit2_proxy_witness (payment : Permit2WitnessPayment) : Witness :=
  { to_ := payment.pay_to
    validAfter := payment.valid_after
    extra := payment.extra }

/-! ## Signature classifier (facilitator.rs `StructuredSignature`)

The secp256k1 and ABI primitives come from the `alloy` library; they are
modelled as an explicit bundle of abstract functions over opaque signature
handles, so the classifier's control flow is the code under study. -/

/-- Opaque handle for an `alloy` `Signature` value. -/
abbrev Sig := Nat

/-- Library primitives used by the classifier and the settlement paths
(`alloy` signature parsing, s-normalization, prehash recovery, ABI decoding of
the EIP-6492 wrapper, and the EIP-712 struct hash). -/
structure SigPrimitives where
  from_raw : Bytes → Option Sig
  from_erc2098 : Bytes → Sig
  normalized_s : Sig → Sig
  recover_address_from_prehash : Sig → B256 → Option Address
  sig_v : Sig → Nat
  sig_r : Sig → B256
  sig_s : Sig → B256
  abi_decode_sig6492 : Bytes → Option (Address × Bytes × Bytes)
  eip712_signing_hash_twa : TransferWithAuthorization → Eip712Domain → B256

/-- The 32-byte EIP-6492 magic suffix (facilitator.rs,
`EIP6492_MAGIC_SUFFIX`): `0x6492` repeated sixteen times. -/
def EIP6492_MAGIC_SUFFIX : Bytes :=
  [0x64, 0x92, 0x64, 0x92, 0x64, 0x92, 0x64, 0x92,
   0x64, 0x92, 0x64, 0x92, 0x64, 0x92, 0x64, 0x92,
   0x64, 0x92, 0x64, 0x92, 0x64, 0x92, 0x64, 0x92,
   0x64, 0x92, 0x64, 0x92, 0x64, 0x92, 0x64, 0x92]

/-- Classifier failure (facilitator.rs, `StructuredSignatureFormatError`):
the EIP-6492 prefix did not ABI-decode. -/
inductive StructuredSignatureFormatError where
  | invalidEIP6492Format
deriving DecidableEq, Repr

/-- Structured signature (facilitator.rs, `StructuredSignature`). -/
inductive StructuredSignature where
  | eip6492 (factory : Address) (factory_calldata : Bytes) (inner : Bytes)
      (original : Bytes)
  | eoa (sig : Sig)
  | eip1271 (sig : Bytes)
deriving DecidableEq, Repr

/-- Signature classification (facilitator.rs,
`StructuredSignature::try_from_bytes`). -/
def StructuredSignature.try_from_bytes (prims : SigPrimitives) (bytes : Bytes)
    (expected_signer : Address) (prehash : B256) :
    Except StructuredSignatureFormatError StructuredSignature :=
  if 32 ≤ bytes.length ∧ bytes.drop (bytes.length - 32) = EIP6492_MAGIC_SUFFIX then
    let body := bytes.take (bytes.length - 32)
    match prims.abi_decode_sig6492 body with
    | none => Except.error StructuredSignatureFormatError.invalidEIP6492Format
    | some (factory, factory_calldata, inner_sig) =>
      Except.ok (StructuredSignature.eip6492 factory factory_calldata inner_sig
        bytes)
  else
    let eoa_signature : Option Sig :=
      if bytes.length = 65 then
        (prims.from_raw bytes).map prims.normalized_s
      else if bytes.length = 64 then
        some (prims.normalized_s (prims.from_erc2098 bytes))
      else
        none
    match eoa_signature with
    | none => Except.ok (StructuredSignature.eip1271 bytes)
    | some s =>
      if prims.recover_address_from_prehash s prehash = some expected_signer then
        Except.ok (StructuredSignature.eoa s)
      else
        Except.ok (StructuredSignature.eip1271 bytes)

/-- Canonical data required to verify a signature (facilitator.rs,
`SignedMessage`). -/
structure SignedMessage where
  address : Address
  hash : B256
  signature : StructuredSignature
deriving DecidableEq, Repr

/-- Builds the EIP-712 struct hash of the payment and classifies its raw
signature (facilitator.rs, `SignedMessage::extract`). -/
def SignedMessage.extract (prims : SigPrimitives) (payment : ExactEvmPayment)
    (domain : Eip712Domain) :
    Except StructuredSignatureFormatError SignedMessage :=
  let transfer_with_authorization : TransferWithAuthorization :=
    { from_ := payment.from_
      to_ := payment.to_
      value := payment.value
      validAfter := payment.valid_after
      validBefore := payment.valid_before
      nonce := payment.nonce }
  let eip712_hash :=
    prims.eip712_signing_hash_twa transfer_with_authorization domain
  match StructuredSignature.try_from_bytes prims payment.signature
      payment.from_ eip712_hash with
  | Except.error e => Except.error e
  | Except.ok structured_signature =>
    Except.ok
      { address := payment.from_
        hash := eip712_hash
        signature := structured_signature }

/-! ## Settlement (facilitator.rs `settle_payment`,
`settle_payment_permit2`, `settle_payment_permit2_witness`)

Calldata is kept symbolic: each constructor denotes the ABI encoding of the
corresponding contract call, and `raw` carries opaque bytes (the EIP-6492
factory calldata).  A Multicall3 `Call3` is the triple
`(allowFailure, target, callData)`.  Each settle function additionally
returns the trace of submitted meta-transactions, each tagged with the
explicit sender when `send_transaction_from` was used. -/

/-- Symbolic calldata of a submitted or aggregated contract call. -/
inductive Calldata where
  | raw (bytes : Bytes)
  | transferWithAuthorization_0 (from_ to_ : Address)
      (value valid_after valid_before : U256) (nonce : B256) (signature : Bytes)
  | transferWithAuthorization_1 (from_ to_ : Address)
      (value valid_after valid_before : U256) (nonce : B256) (v : Nat) (r s : B256)
  | permit (owner : Address) (permit_single : PermitSingle) (signature : Bytes)
  | transferFrom (owner to_ : Address) (amount : Nat) (token : Address)
  | settle (permit : PermitTransferFrom) (owner : Address) (witness : Witness)
      (signature : Bytes)
  | aggregate3 (calls : List (Bool × Address × Calldata))

/-- Meta-transaction submitted by the provider (`chain` crate,
`MetaTransaction`). -/
structure MetaTransaction where
  to_ : Address
  calldata : Calldata
  confirmations : Nat

/-- Transaction receipt: status flag and transaction hash. -/
structure Receipt where
  status : Bool
  transaction_hash : TxHash
deriving DecidableEq, Repr

/-- A submitted transaction: optional explicit sender (for
`send_transaction_from`) plus the meta-transaction. -/
abbrev SubmittedTx := Option Address × MetaTransaction

/-- Settlement environment: `eth_getCode` plus deterministic receipt oracles
for `send_transaction` / `send_transaction_from`. -/
structure SettleEnv where
  get_code : Address → Bytes
  send_transaction : MetaTransaction → Receipt
  send_transaction_from : MetaTransaction → Address → Receipt

/-- Receipt observed for a submitted transaction. -/
def SettleEnv.receipt_of (env : SettleEnv) : SubmittedTx → Receipt
  | (none, mtx) => env.send_transaction mtx
  | (some signer, mtx) => env.send_transaction_from mtx signer

/-- Check whether contract code is present at `address` (facilitator.rs,
`is_contract_deployed`). -/
def is_contract_deployed (env : SettleEnv) (address : Address) : Bool :=
  !(env.get_code address).isEmpty

/-- ERC-3009 settlement (facilitator.rs, `settle_payment`): classify the
signature, submit either the direct `transferWithAuthorization` or — for a
counterfactual EIP-6492 wallet — a Multicall3 bundling deployment and
transfer, then map a failed receipt to `TransactionReverted`. -/
def settle_payment (env : SettleEnv) (prims : SigPrimitives)
    (contract : Address) (payment : ExactEvmPayment) (domain : Eip712Domain) :
    List SubmittedTx × Except Eip155ExactError TxHash :=
  match SignedMessage.extract prims payment domain with
  | Except.error _ =>
    ([], Except.error (Eip155ExactError.paymentVerification
      (PaymentVerificationError.invalidSignature "InvalidEIP6492Format")))
  | Except.ok signed_message =>
    let payer := payment.from_
    let submission : List SubmittedTx × Receipt :=
      match signed_message.signature with
      | StructuredSignature.eip6492 factory factory_calldata inner _ =>
        let transfer_calldata := Calldata.transferWithAuthorization_0
          payment.from_ payment.to_ payment.value payment.valid_after
          payment.valid_before payment.nonce inner
        if is_contract_deployed env payer then
          -- transferWithAuthorization with inner signature
          let mtx : MetaTransaction := ⟨contract, transfer_calldata, 1⟩
          ([(none, mtx)], env.send_transaction mtx)
        else
          -- deploy the smart wallet, and transferWithAuthorization with inner signature
          let deployment_call : Bool × Address × Calldata :=
            (true, factory, Calldata.raw factory_calldata)
          let transfer_with_authorization_call : Bool × Address × Calldata :=
            (false, contract, transfer_calldata)
          let aggregate_call := Calldata.aggregate3
            [deployment_call, transfer_with_authorization_call]
          let mtx : MetaTransaction := ⟨MULTICALL3_ADDRESS, aggregate_call, 1⟩
          ([(none, mtx)], env.send_transaction mtx)
      | StructuredSignature.eip1271 eip1271_signature =>
        let mtx : MetaTransaction :=
          ⟨contract, Calldata.transferWithAuthorization_0 payment.from_
            payment.to_ payment.value payment.valid_after payment.valid_before
            payment.nonce eip1271_signature, 1⟩
        ([(none, mtx)], env.send_transaction mtx)
      | StructuredSignature.eoa signature =>
        -- v = 27 + parity bit, r and s from the recovered-form signature
        let v := 27 + prims.sig_v signature
        let r := prims.sig_r signature
        let s := prims.sig_s signature
        let mtx : MetaTransaction :=
          ⟨contract, Calldata.transferWithAuthorization_1 payment.from_
            payment.to_ payment.value payment.valid_after payment.valid_before
            payment.nonce v r s, 1⟩
        ([(none, mtx)], env.send_transaction mtx)
    let receipt := submission.2
    (submission.1,
      if receipt.status then
        Except.ok receipt.transaction_hash
      else
        Except.error (Eip155ExactError.transactionReverted
          receipt.transaction_hash))

/-- Permit2 AllowanceTransfer settlement (facilitator.rs,
`settle_payment_permit2`): submit `permit` then `transferFrom` as two
meta-transactions from `payment.spender`; abort with the permit's tx hash if
the permit receipt reverts. -/
def settle_payment_permit2 (env : SettleEnv) (contract : Address)
    (payment : Permit2Payment) :
    List SubmittedTx × Except Eip155ExactError TxHash :=
  match build_permit2_single_call payment with
  | Except.error e =>
    ([], Except.error (Eip155ExactError.paymentVerification e))
  | Except.ok permit_single =>
    match permit2_amount payment.transfer_amount with
    | Except.error e =>
      ([], Except.error (Eip155ExactError.paymentVerification e))
    | Except.ok transfer_amount =>
      let permit_tx : MetaTransaction :=
        ⟨contract, Calldata.permit payment.owner permit_single
          payment.signature, 1⟩
      let permit_receipt := env.send_transaction_from permit_tx payment.spender
      if permit_receipt.status = false then
        ([(some payment.spender, permit_tx)],
          Except.error (Eip155ExactError.transactionReverted
            permit_receipt.transaction_hash))
      else
        let transfer_tx : MetaTransaction :=
          ⟨contract, Calldata.transferFrom payment.owner payment.pay_to
            transfer_amount payment.token, 1⟩
        let transfer_receipt :=
          env.send_transaction_from transfer_tx payment.spender
        ([(some payment.spender, permit_tx),
          (some payment.spender, transfer_tx)],
          if transfer_receipt.status then
            Except.ok transfer_receipt.transaction_hash
          else
            Except.error (Eip155ExactError.transactionReverted
              transfer_receipt.transaction_hash))

/-- Permit2 SignatureTransfer settlement (facilitator.rs,
`settle_payment_permit2_witness`): a single `proxy.settle` submission. -/
def settle_payment_permit2_witness (env : SettleEnv) (contract : Address)
    (payment : Permit2WitnessPayment) :
    List SubmittedTx × Except Eip155ExactError TxHash :=
  let permit := build_permit2_proxy_permit payment
  let witness := build_permit2_proxy_witness payment
  let settle_tx : MetaTransaction :=
    ⟨contract, Calldata.settle permit payment.from_ witness
      payment.signature, 1⟩
  let receipt := env.send_transaction settle_tx
  ([(none, settle_tx)],
    if receipt.status then
      Except.ok receipt.transaction_hash
    else
      Except.error (Eip155ExactError.transactionReverted
        receipt.transaction_hash))

/-! ## Compliance gate (x402-facilitator-local `compliance.rs`)

The remote Chainalysis HTTP query is abstracted as an oracle; the clock is an
explicit `now_ms`.  An "emitted" audit event is a call to `record_audit`
(which additionally persists the event only when `audit_log_path` is set). -/

/-- Compliance provider (`compliance.rs`, `ComplianceProvider`).  Of the
Chainalysis configuration only `fail_closed` is consulted outside the
abstracted HTTP query. -/
inductive ComplianceProvider where
  | lists
  | chainalysis (fail_closed : Bool)
deriving DecidableEq, Repr

/-- Compliance gate state (`compliance.rs`, `ComplianceGate`). -/
structure ComplianceGate where
  enabled : Bool
  deny_list : List String
  allow_list : List String
  provider : ComplianceProvider
  audit_log_path : Option String
deriving DecidableEq, Repr

/-- Provider name used in records (`compliance.rs`,
`ComplianceGate::provider_name`). -/
def ComplianceGate.provider_name (gate : ComplianceGate) : String :=
  match gate.provider with
  | ComplianceProvider.lists => "lists"
  | ComplianceProvider.chainalysis _ => "chainalysis"

/-- Per-party audit record (`compliance.rs`, `CompliancePartyRecord`). -/
structure CompliancePartyRecord where
  role : String
  address : String
  status : String
  provider : String
  reason : Option String
deriving DecidableEq, Repr

/-- Failed party check (`compliance.rs`, `CompliancePartyCheckFailure`). -/
structure CompliancePartyCheckFailure where
  party : CompliancePartyRecord
  error : PaymentVerificationError
deriving DecidableEq, Repr

/-- Audit event (`compliance.rs`, `ComplianceAuditEvent`); the `metadata`
field (always `None` on the validation path) is omitted. -/
structure ComplianceAuditEvent where
  event_type : String
  request_type : String
  timestamp_ms : Nat
  outcome : String
  provider : String
  payer : Option String
  payee : Option String
  wallet : Option String
  user_agent : Option String
  reason : Option String
  parties : List CompliancePartyRecord
deriving DecidableEq, Repr

/-- Remote screening outcome (`compliance.rs`, `ChainalysisResult`). -/
inductive ChainalysisResult where
  | allowed
  | denied (reason : String)
  | unknown (reason : String)
deriving DecidableEq, Repr

/-- Oracle for `query_chainalysis` (network, JSON heuristics and timeouts
abstracted). -/
abbrev ChainalysisQuery := String → Except PaymentVerificationError ChainalysisResult

/-- Model of Rust `char::is_ascii_hexdigit`. -/
def is_ascii_hexdigit (c : Char) : Bool :=
  c.isDigit || ('a' ≤ c && c ≤ 'f') || ('A' ≤ c && c ≤ 'F')

/-- Model of Rust `char::is_whitespace` restricted to the ASCII whitespace
characters (the inputs exercised here are ASCII). -/
def is_whitespace_char (c : Char) : Bool :=
  c = ' ' || c = '\t' || c = '\n' || c = '\r'

/-- Model of Rust `str::trim` on a character list: strip whitespace from both
ends. -/
def trim_chars (cs : List Char) : List Char :=
  ((cs.dropWhile is_whitespace_char).reverse.dropWhile
    is_whitespace_char).reverse

/-- Model of Rust `char::to_lowercase` restricted to ASCII letters. -/
def ascii_to_lower (c : Char) : Char :=
  if 'A' ≤ c ∧ c ≤ 'Z' then Char.ofNat (c.toNat + 32) else c

/-- Address normalization (`compliance.rs`, `normalize_address`): trim and
lowercase, then accept a 42-character `0x`-prefixed string as-is, or prefix a
bare 40-hex-digit string with `0x`.  (Rust lowercases by Unicode rules and
measures bytes; this model works per ASCII character, which agrees on the
ASCII inputs exercised here.) -/
def normalize_address (address : String) : Option String :=
  let normalized := (trim_chars address.toList).map ascii_to_lower
  if normalized.take 2 = ['0', 'x'] ∧ normalized.length = 42 then
    some (String.mk normalized)
  else if normalized.length = 40 ∧ normalized.all is_ascii_hexdigit then
    some (String.mk ('0' :: 'x' :: normalized))
  else
    none

/-- Display of a `PaymentVerificationError` as interpolated into audit-event
reasons.  The `thiserror` display lives in `x402-types`, outside the sources
under study; on the compliance path only `ComplianceFailed` occurs and its
message is the displayed text. -/
def PaymentVerificationError.display : PaymentVerificationError → String
  | PaymentVerificationError.invalidFormat msg => msg
  | PaymentVerificationError.unsupportedChain => "unsupported chain"
  | PaymentVerificationError.chainIdMismatch => "chain id mismatch"
  | PaymentVerificationError.assetMismatch => "asset mismatch"
  | PaymentVerificationError.recipientMismatch => "recipient mismatch"
  | PaymentVerificationError.invalidPaymentAmount => "invalid payment amount"
  | PaymentVerificationError.early => "early"
  | PaymentVerificationError.expired => "expired"
  | PaymentVerificationError.insufficientFunds => "insufficient funds"
  | PaymentVerificationError.invalidSignature msg => msg
  | PaymentVerificationError.transactionSimulation msg => msg
  | PaymentVerificationError.complianceFailed msg => msg

/-- Single-party compliance check (`compliance.rs`,
`ComplianceGate::validate_party`): deny-list, then allow-list, then the
configured provider. -/
def ComplianceGate.validate_party (gate : ComplianceGate)
    (query : ChainalysisQuery) (role address : String) :
    Except CompliancePartyCheckFailure CompliancePartyRecord :=
  if gate.deny_list.any (fun denied => denied == address) then
    Except.error
      { party :=
          { role := role, address := address, status := "denied"
            provider := gate.provider_name
            reason := some "address is explicitly denied" }
        error := PaymentVerificationError.complianceFailed
          (role ++ " is denied by compliance policy: " ++ address) }
  else if !gate.allow_list.isEmpty &&
      !(gate.allow_list.any (fun allowed => allowed == address)) then
    Except.error
      { party :=
          { role := role, address := address, status := "denied"
            provider := gate.provider_name
            reason := some "address is not in compliance allow-list" }
        error := PaymentVerificationError.complianceFailed
          (role ++ " is not in compliance allow-list: " ++ address) }
  else match gate.provider with
  | ComplianceProvider.lists =>
    Except.ok
      { role := role, address := address, status := "passed"
        provider := gate.provider_name, reason := none }
  | ComplianceProvider.chainalysis fail_closed =>
    match query address with
    | Except.error error =>
      Except.error
        { party :=
            { role := role, address := address, status := "unknown"
              provider := gate.provider_name
              reason := some ("chainalysis query failed: " ++ error.display) }
          error := error }
    | Except.ok ChainalysisResult.allowed =>
      Except.ok
        { role := role, address := address, status := "passed"
          provider := gate.provider_name, reason := some "chainalysis clear" }
    | Except.ok (ChainalysisResult.denied reason) =>
      Except.error
        { party :=
            { role := role, address := address, status := "denied"
              provider := gate.provider_name, reason := some reason }
          error := PaymentVerificationError.complianceFailed
            (role ++ " failed provider screening: " ++ reason) }
    | Except.ok (ChainalysisResult.unknown reason) =>
      if fail_closed then
        Except.error
          { party :=
              { role := role, address := address, status := "denied"
                provider := gate.provider_name, reason := some reason }
            error := PaymentVerificationError.complianceFailed
              (role ++ " screening result unresolved: " ++ reason) }
      else
        Except.ok
          { role := role, address := address, status := "warn"
            provider := gate.provider_name, reason := some reason }

/-- Payee phase and final "allowed" event of `validate_for_request`
(`compliance.rs`, second half of `ComplianceGate::validate_for_request`). -/
def ComplianceGate.validate_payee_phase (gate : ComplianceGate)
    (query : ChainalysisQuery) (now_ms : Nat) (request_type : String)
    (payer payee : Option String)
    (party_records : List CompliancePartyRecord) :
    List ComplianceAuditEvent × Except PaymentVerificationError Unit :=
  match payee with
  | some payee_raw =>
    match normalize_address payee_raw with
    | none =>
      ([], Except.error (PaymentVerificationError.complianceFailed
        "payee has an invalid address format"))
    | some payee_normalized =>
      match gate.validate_party query "payee" payee_normalized with
      | Except.error failure =>
        ([{ event_type := "compliance_check", request_type := request_type
            timestamp_ms := now_ms, outcome := "denied"
            provider := gate.provider_name
            payer := payer.map String.toLower
            payee := some payee_normalized
            wallet := none, user_agent := none
            reason := some failure.error.display
            parties := party_records ++ [failure.party] }],
          Except.error failure.error)
      | Except.ok record =>
        ([{ event_type := "compliance_check", request_type := request_type
            timestamp_ms := now_ms, outcome := "allowed"
            provider := gate.provider_name
            payer := payer.map String.toLower
            payee := payee.map String.toLower
            wallet := none, user_agent := none
            reason := none, parties := party_records ++ [record] }],
          Except.ok ())
  | none =>
    ([{ event_type := "compliance_check", request_type := request_type
        timestamp_ms := now_ms, outcome := "allowed"
        provider := gate.provider_name
        payer := payer.map String.toLower
        payee := payee.map String.toLower
        wallet := none, user_agent := none
        reason := none, parties := party_records }],
      Except.ok ())

/-- Request-level compliance validation (`compliance.rs`,
`ComplianceGate::validate_for_request`), returning the list of audit events
passed to `record_audit` alongside the result. -/
def ComplianceGate.validate_for_request (gate : ComplianceGate)
    (query : ChainalysisQuery) (now_ms : Nat) (request_type : String)
    (payer payee : Option String) :
    List ComplianceAuditEvent × Except PaymentVerificationError Unit :=
  if gate.enabled = false then
    ([{ event_type := "compliance_check", request_type := request_type
        timestamp_ms := now_ms, outcome := "disabled"
        provider := gate.provider_name
        payer := payer.map String.toLower, payee := payee.map String.toLower
        wallet := none, user_agent := none
        reason := some "compliance disabled", parties := [] }],
      Except.ok ())
  else
    match payer with
    | some payer_raw =>
      match normalize_address payer_raw with
      | none =>
        ([], Except.error (PaymentVerificationError.complianceFailed
          "payer has an invalid address format"))
      | some payer_normalized =>
        match gate.validate_party query "payer" payer_normalized with
        | Except.error failure =>
          ([{ event_type := "compliance_check", request_type := request_type
              timestamp_ms := now_ms, outcome := "denied"
              provider := gate.provider_name
              payer := some payer_normalized
              payee := payee.map String.toLower
              wallet := none, user_agent := none
              reason := some failure.error.display
              parties := [failure.party] }],
            Except.error failure.error)
        | Except.ok record =>
          gate.validate_payee_phase query now_ms request_type payer payee
            [record]
    | none =>
      gate.validate_payee_phase query now_ms request_type payer payee []


/-! ## CAIP-2 parsing (x402-types `chain_id.rs`, `ChainId::from_str`) -/

/-- Model of Rust `str::splitn(2, sep)` restricted to its two-part result:
`none` when `sep` does not occur (one part), otherwise the text before the
first separator and everything after it. -/
def split_once_char (sep : Char) : List Char → Option (List Char × List Char)
  | [] => none
  | c :: rest =>
    if c = sep then
      some ([], rest)
    else
      match split_once_char sep rest with
      | none => none
      | some (a, b) => some (c :: a, b)

/-- CAIP-2 parser (`chain_id.rs`, `ChainId::from_str`): `splitn(2, ':')` must
yield exactly two parts (i.e. the string contains a colon); the parts are
taken verbatim — the code performs no emptiness check on either part.  The
error carries the offending string (`ChainIdFormatError`). -/
def ChainId.from_str (s : String) : Except String ChainId :=
  match split_once_char ':' s.toList with
  | none => Except.error ("Invalid chain id format " ++ s)
  | some (namespace_part, reference_part) =>
    Except.ok ⟨String.mk namespace_part, String.mk reference_part⟩

/-- Display (`chain_id.rs`, `impl fmt::Display for ChainId`):
`namespace:reference`. -/
def ChainId.display (c : ChainId) : String :=
  c.namespace_ ++ ":" ++ c.reference

/-!
# Theorems

One theorem per claim of the specification, in claim order.
-/

/-- C3: with `now = T`, `assert_time` returns `Expired` iff
`valid_before < T + 6` (this check runs first), returns `Early` iff
`valid_before ≥ T + 6` and `valid_after > T`, and `Ok` otherwise; in
particular `valid_after = T` with `valid_before = T + 7` is accepted,
`valid_before = T + 5` yields `Expired`, and `valid_after = T + 1` (with an
unexpired `valid_before`) yields `Early`. -/
theorem assert_time_grace_law (T valid_after valid_before : UnixTimestamp) :
    (assert_time T valid_after valid_before
        = Except.error PaymentVerificationError.expired
      ↔ valid_before < T + 6)
    ∧ (assert_time T valid_after valid_before
        = Except.error PaymentVerificationError.early
      ↔ T + 6 ≤ valid_before ∧ T < valid_after)
    ∧ (T + 6 ≤ valid_before → valid_after ≤ T →
        assert_time T valid_after valid_before = Except.ok ())
    ∧ assert_time T T (T + 7) = Except.ok ()
    ∧ assert_time T valid_after (T + 5)
        = Except.error PaymentVerificationError.expired
    ∧ (T + 6 ≤ valid_before →
        assert_time T (T + 1) valid_before
          = Except.error PaymentVerificationError.early) := by
  refine ⟨?_, ?_, ?_, ?_, ?_, ?_⟩ <;>
    simp only [assert_time] <;> split_ifs <;> simp_all <;> omega

/-- Witness for C3 at `T = 100`: the boundary acceptance and the `Early`
particular, with the hypotheses discharged concretely. -/
theorem assert_time_grace_law_witness :
    assert_time 100 100 107 = Except.ok ()
      ∧ assert_time 100 101 400
          = Except.error PaymentVerificationError.early :=
  ⟨(assert_time_grace_law 100 100 107).2.2.2.1,
   (assert_time_grace_law 100 101 400).2.2.2.2.2 (by decide)⟩

/-- C9: building the on-chain `PermitSingle` fails with
`InvalidFormat "Permit2 amount exceeds uint160"` exactly when the amount
exceeds `2 ^ 160 - 1`; with the amount in range it fails with an error naming
`expiration` (resp. `nonce`) exactly when that field exceeds `2 ^ 48 - 1`,
the `expiration` check running first; and with everything in range the
coerced values equal the inputs. -/
theorem permit2_bounded_coercions :
    (∀ amount : U256,
      (permit2_amount amount
          = Except.error (PaymentVerificationError.invalidFormat
            "Permit2 amount exceeds uint160")
        ↔ 2 ^ 160 - 1 < amount)
      ∧ (amount ≤ 2 ^ 160 - 1 → permit2_amount amount = Except.ok amount))
    ∧ (∀ (value : Nat) (field : String),
      (permit2_u48 value field
          = Except.error (PaymentVerificationError.invalidFormat
            ("Permit2 " ++ field ++ " exceeds uint48"))
        ↔ 2 ^ 48 - 1 < value)
      ∧ (value ≤ 2 ^ 48 - 1 → permit2_u48 value field = Except.ok value))
    ∧ (∀ payment : Permit2Payment,
      (build_permit2_single_call payment
          = Except.error (PaymentVerificationError.invalidFormat
            "Permit2 amount exceeds uint160")
        ↔ 2 ^ 160 - 1 < payment.amount)
      ∧ (payment.amount ≤ 2 ^ 160 - 1 →
        (build_permit2_single_call payment
            = Except.error (PaymentVerificationError.invalidFormat
              "Permit2 expiration exceeds uint48")
          ↔ 2 ^ 48 - 1 < payment.expiration)
        ∧ (payment.expiration ≤ 2 ^ 48 - 1 →
          (build_permit2_single_call payment
              = Except.error (PaymentVerificationError.invalidFormat
                "Permit2 nonce exceeds uint48")
            ↔ 2 ^ 48 - 1 < payment.nonce)
          ∧ (payment.nonce ≤ 2 ^ 48 - 1 →
            build_permit2_single_call payment = Except.ok
              { details :=
                  { token := payment.token
                    amount := payment.amount
                    expiration := payment.expiration
                    nonce := payment.nonce }
                spender := payment.spender
                sigDeadline := payment.sig_deadline })))) := by
  have hamount : ∀ amount : U256,
      (permit2_amount amount
          = Except.error (PaymentVerificationError.invalidFormat
            "Permit2 amount exceeds uint160")
        ↔ 2 ^ 160 - 1 < amount)
      ∧ (amount ≤ 2 ^ 160 - 1 → permit2_amount amount = Except.ok amount) := by
    intro amount
    constructor
    · constructor
      · intro heq
        by_contra hlt
        push_neg at hlt
        unfold permit2_amount at heq
        rw [if_neg (Nat.not_lt.mpr hlt)] at heq
        cases heq
      · intro hlt
        unfold permit2_amount
        rw [if_pos hlt]
    · intro h
      unfold permit2_amount
      rw [if_neg (Nat.not_lt.mpr h)]
      rw [Nat.mod_eq_of_lt (lt_of_le_of_lt h (by norm_num))]
  have hu48 : ∀ (value : Nat) (field : String),
      (permit2_u48 value field
          = Except.error (PaymentVerificationError.invalidFormat
            ("Permit2 " ++ field ++ " exceeds uint48"))
        ↔ 2 ^ 48 - 1 < value)
      ∧ (value ≤ 2 ^ 48 - 1 → permit2_u48 value field = Except.ok value) := by
    intro value field
    constructor
    · constructor
      · intro heq
        by_contra hlt
        push_neg at hlt
        unfold permit2_u48 PERMIT2_U48_MAX at heq
        rw [if_neg (Nat.not_lt.mpr hlt)] at heq
        cases heq
      · intro hlt
        unfold permit2_u48 PERMIT2_U48_MAX
        rw [if_pos hlt]
    · intro h
      unfold permit2_u48 PERMIT2_U48_MAX
      rw [if_neg (Nat.not_lt.mpr h)]
  have hne_exp_amt : PaymentVerificationError.invalidFormat
        "Permit2 expiration exceeds uint48"
      ≠ PaymentVerificationError.invalidFormat
        "Permit2 amount exceeds uint160" := by decide
  have hne_non_amt : PaymentVerificationError.invalidFormat
        "Permit2 nonce exceeds uint48"
      ≠ PaymentVerificationError.invalidFormat
        "Permit2 amount exceeds uint160" := by decide
  have hne_non_exp : PaymentVerificationError.invalidFormat
        "Permit2 nonce exceeds uint48"
      ≠ PaymentVerificationError.invalidFormat
        "Permit2 expiration exceeds uint48" := by decide
  refine ⟨hamount, hu48, ?_⟩
  intro payment
  have hbuild_amt : 2 ^ 160 - 1 < payment.amount →
      build_permit2_single_call payment
        = Except.error (PaymentVerificationError.invalidFormat
          "Permit2 amount exceeds uint160") := by
    intro ha
    unfold build_permit2_single_call
    rw [(hamount payment.amount).1.mpr ha]
  have hbuild_exp : payment.amount ≤ 2 ^ 160 - 1 →
      2 ^ 48 - 1 < payment.expiration →
      build_permit2_single_call payment
        = Except.error (PaymentVerificationError.invalidFormat
          "Permit2 expiration exceeds uint48") := by
    intro ha hx
    unfold build_permit2_single_call
    rw [(hamount payment.amount).2 ha]
    rw [(hu48 payment.expiration "expiration").1.mpr hx]
    rfl
  have hbuild_non : payment.amount ≤ 2 ^ 160 - 1 →
      payment.expiration ≤ 2 ^ 48 - 1 → 2 ^ 48 - 1 < payment.nonce →
      build_permit2_single_call payment
        = Except.error (PaymentVerificationError.invalidFormat
          "Permit2 nonce exceeds uint48") := by
    intro ha hx hy
    unfold build_permit2_single_call
    rw [(hamount payment.amount).2 ha]
    rw [(hu48 payment.expiration "expiration").2 hx]
    rw [(hu48 payment.nonce "nonce").1.mpr hy]
    rfl
  have hbuild_ok : payment.amount ≤ 2 ^ 160 - 1 →
      payment.expiration ≤ 2 ^ 48 - 1 → payment.nonce ≤ 2 ^ 48 - 1 →
      build_permit2_single_call payment = Except.ok
        { details :=
            { token := payment.token
              amount := payment.amount
              expiration := payment.expiration
              nonce := payment.nonce }
          spender := payment.spender
          sigDeadline := payment.sig_deadline } := by
    intro ha hx hy
    unfold build_permit2_single_call
    rw [(hamount payment.amount).2 ha]
    rw [(hu48 payment.expiration "expiration").2 hx]
    rw [(hu48 payment.nonce "nonce").2 hy]
  constructor
  · constructor
    · intro heq
      by_contra ha
      push_neg at ha
      by_cases hx : 2 ^ 48 - 1 < payment.expiration
      · rw [hbuild_exp ha hx] at heq
        exact hne_exp_amt (by injection heq)
      · push_neg at hx
        by_cases hy : 2 ^ 48 - 1 < payment.nonce
        · rw [hbuild_non ha hx hy] at heq
          exact hne_non_amt (by injection heq)
        · push_neg at hy
          rw [hbuild_ok ha hx hy] at heq
          cases heq
    · exact hbuild_amt
  · intro ha
    constructor
    · constructor
      · intro heq
        by_contra hx
        push_neg at hx
        by_cases hy : 2 ^ 48 - 1 < payment.nonce
        · rw [hbuild_non ha hx hy] at heq
          exact hne_non_exp (by injection heq)
        · push_neg at hy
          rw [hbuild_ok ha hx hy] at heq
          cases heq
      · exact hbuild_exp ha
    · intro hx
      constructor
      · constructor
        · intro heq
          by_contra hy
          push_neg at hy
          rw [hbuild_ok ha hx hy] at heq
          cases heq
        · exact hbuild_non ha hx
      · exact hbuild_ok ha hx

/-- Witness for C9: a concrete in-range payment builds the expected
`PermitSingle`, and a concrete oversized amount is rejected. -/
theorem permit2_bounded_coercions_witness :
    build_permit2_single_call
        { owner := 1, spender := 2, pay_to := 3, token := 4, amount := 5
          expiration := 6, nonce := 7, sig_deadline := 8, signature := [9]
          transfer_amount := 5 }
      = Except.ok
        { details := { token := 4, amount := 5, expiration := 6, nonce := 7 }
          spender := 2, sigDeadline := 8 }
      ∧ permit2_amount (2 ^ 160)
        = Except.error (PaymentVerificationError.invalidFormat
          "Permit2 amount exceeds uint160") := by
  constructor
  · exact ((((permit2_bounded_coercions.2.2
      { owner := 1, spender := 2, pay_to := 3, token := 4, amount := 5
        expiration := 6, nonce := 7, sig_deadline := 8, signature := [9]
        transfer_amount := 5 }).2 (by norm_num)).2 (by norm_num)).2 (by norm_num))
  · exact (permit2_bounded_coercions.1 (2 ^ 160)).1.mpr (by norm_num)

/-- C10 (code observation): `ChainId::from_str` performs no emptiness check,
so strings with an empty namespace or reference parse successfully — ":42793"
yields `⟨"", "42793"⟩` and ":" yields `⟨"", ""⟩` — contradicting the
documented requirement (and the claim) that both components be non-empty.
Display still reproduces `namespace:reference`. -/
theorem chain_id_from_str_accepts_empty :
    ChainId.from_str ":42793" = Except.ok ⟨"", "42793"⟩
      ∧ ChainId.from_str ":" = Except.ok ⟨"", ""⟩
      ∧ (ChainId.from_str ":42793").map ChainId.display
          = Except.ok ":42793"
      ∧ ChainId.from_str "eip155:42793" = Except.ok ⟨"eip155", "42793"⟩
      ∧ ChainId.from_str "eip155" = Except.error
          "Invalid chain id format eip155" := by
  refine ⟨rfl, rfl, rfl, rfl, rfl⟩

/-- C4: signature classification.  With the magic suffix present (length at
least 32 and last 32 bytes equal to the suffix), the prefix is ABI-decoded:
decode failure is a `FormatError` and success is `EIP6492` with
`original = bytes`.  Otherwise the result is `EOA s` exactly when the bytes
parse as a 64- or 65-byte signature whose s-normalized form `s` recovers the
expected signer from the prehash; every other input classifies as
`EIP1271 bytes`. -/
theorem structured_signature_classification (prims : SigPrimitives)
    (bytes : Bytes) (expected_signer : Address) (prehash : B256) :
    (32 ≤ bytes.length → bytes.drop (bytes.length - 32) = EIP6492_MAGIC_SUFFIX →
      StructuredSignature.try_from_bytes prims bytes expected_signer prehash
        = (match prims.abi_decode_sig6492 (bytes.take (bytes.length - 32)) with
          | none =>
            Except.error StructuredSignatureFormatError.invalidEIP6492Format
          | some (factory, factory_calldata, inner_sig) =>
            Except.ok (StructuredSignature.eip6492 factory factory_calldata
              inner_sig bytes)))
    ∧ (¬(32 ≤ bytes.length ∧
          bytes.drop (bytes.length - 32) = EIP6492_MAGIC_SUFFIX) →
      (∀ s : Sig,
        (StructuredSignature.try_from_bytes prims bytes expected_signer prehash
            = Except.ok (StructuredSignature.eoa s)
          ↔ ((bytes.length = 65
                ∧ (prims.from_raw bytes).map prims.normalized_s = some s)
              ∨ (bytes.length = 64
                ∧ s = prims.normalized_s (prims.from_erc2098 bytes)))
            ∧ prims.recover_address_from_prehash s prehash
                = some expected_signer))
      ∧ ((∀ s : Sig,
          ¬(((bytes.length = 65
                ∧ (prims.from_raw bytes).map prims.normalized_s = some s)
              ∨ (bytes.length = 64
                ∧ s = prims.normalized_s (prims.from_erc2098 bytes)))
            ∧ prims.recover_address_from_prehash s prehash
                = some expected_signer)) →
        StructuredSignature.try_from_bytes prims bytes expected_signer prehash
          = Except.ok (StructuredSignature.eip1271 bytes))) := by
  constructor
  · intro h1 h2
    unfold StructuredSignature.try_from_bytes
    rw [if_pos ⟨h1, h2⟩]
  · intro hmag
    have hbody :
        StructuredSignature.try_from_bytes prims bytes expected_signer prehash
          = (match (if bytes.length = 65 then
                (prims.from_raw bytes).map prims.normalized_s
              else if bytes.length = 64 then
                some (prims.normalized_s (prims.from_erc2098 bytes))
              else
                none) with
            | none => Except.ok (StructuredSignature.eip1271 bytes)
            | some s =>
              if prims.recover_address_from_prehash s prehash
                  = some expected_signer then
                Except.ok (StructuredSignature.eoa s)
              else
                Except.ok (StructuredSignature.eip1271 bytes)) := by
      unfold StructuredSignature.try_from_bytes
      rw [if_neg hmag]
    constructor
    · intro s
      rw [hbody]
      by_cases h65 : bytes.length = 65
      · rcases hr : prims.from_raw bytes with _ | raw
        · simp [h65, hr]
        · by_cases hrec : prims.recover_address_from_prehash
              (prims.normalized_s raw) prehash = some expected_signer
          · simp [h65, hr, hrec]
            rintro rfl
            exact hrec
          · simp [h65, hr, hrec]
            rintro rfl
            exact hrec
      · by_cases h64 : bytes.length = 64
        · by_cases hrec : prims.recover_address_from_prehash
              (prims.normalized_s (prims.from_erc2098 bytes)) prehash
                = some expected_signer
          · simp [h65, h64, hrec]
            constructor
            · intro h
              exact ⟨h.symm, h ▸ hrec⟩
            · intro h
              exact h.1.symm
          · simp [h65, h64, hrec]
            rintro rfl
            exact hrec
        · simp [h65, h64]
    · intro hno
      rw [hbody]
      by_cases h65 : bytes.length = 65
      · rcases hr : prims.from_raw bytes with _ | raw
        · simp [h65, hr]
        · by_cases hrec : prims.recover_address_from_prehash
              (prims.normalized_s raw) prehash = some expected_signer
          · exact absurd ⟨Or.inl ⟨h65, by rw [hr]; rfl⟩, hrec⟩
              (hno (prims.normalized_s raw))
          · simp [h65, hr, hrec]
      · by_cases h64 : bytes.length = 64
        · by_cases hrec : prims.recover_address_from_prehash
              (prims.normalized_s (prims.from_erc2098 bytes)) prehash
                = some expected_signer
          · exact absurd ⟨Or.inr ⟨h64, rfl⟩, hrec⟩
              (hno (prims.normalized_s (prims.from_erc2098 bytes)))
          · simp [h65, h64, hrec]
        · simp [h65, h64]

/-- Concrete primitive bundle used by closed witnesses: every signature
handle is `0`, recovery always reports address `5`, and the ABI decoder
returns `(7, [8], [9])`. -/
def sample_prims : SigPrimitives :=
  { from_raw := fun _ => some 0
    from_erc2098 := fun _ => 0
    normalized_s := fun s => s
    recover_address_from_prehash := fun _ _ => some 5
    sig_v := fun _ => 0
    sig_r := fun _ => 0
    sig_s := fun _ => 0
    abi_decode_sig6492 := fun _ => some (7, [8], [9])
    eip712_signing_hash_twa := fun _ _ => 0 }

/-- Witness for C4: the bare magic suffix classifies as EIP-6492 with
`original` the full bytes, and a 65-byte non-magic string recovering the
expected signer classifies as EOA. -/
theorem structured_signature_classification_witness :
    StructuredSignature.try_from_bytes sample_prims EIP6492_MAGIC_SUFFIX 5 0
      = Except.ok (StructuredSignature.eip6492 7 [8] [9] EIP6492_MAGIC_SUFFIX)
    ∧ StructuredSignature.try_from_bytes sample_prims (List.replicate 65 0) 5 0
      = Except.ok (StructuredSignature.eoa 0) := by
  constructor
  · have h := (structured_signature_classification sample_prims
      EIP6492_MAGIC_SUFFIX 5 0).1 (by decide) (by decide)
    rw [h]
    rfl
  · have h := ((structured_signature_classification sample_prims
      (List.replicate 65 0) 5 0).2 (by decide)).1 0
    exact h.mpr (by decide)

/-- Helper: the balance check only ever produces `InsufficientFunds`. -/
theorem assert_enough_balance_cases (env : ChainEnv) (token sender : Address)
    (amt : U256) :
    assert_enough_balance env token sender amt = Except.ok ()
    ∨ assert_enough_balance env token sender amt
        = Except.error PaymentVerificationError.insufficientFunds := by
  unfold assert_enough_balance
  split_ifs <;> simp

/-- Helper: the witness time check only ever produces `Expired` or `Early`. -/
theorem assert_permit2_witness_time_cases (now deadline valid_after : UnixTimestamp) :
    assert_permit2_witness_time now deadline valid_after = Except.ok ()
    ∨ assert_permit2_witness_time now deadline valid_after
        = Except.error PaymentVerificationError.expired
    ∨ assert_permit2_witness_time now deadline valid_after
        = Except.error PaymentVerificationError.early := by
  unfold assert_permit2_witness_time
  split_ifs <;> simp

/-- C1: `assert_enough_value` accepts exactly equality of the declared and
required amounts; and in each authorization branch of pre-flight validation,
with the checks that the source runs before the amount comparison passing,
validation fails with `InvalidPaymentAmount` exactly when the declared amount
(ERC-3009 `value`, Permit2 `details.amount`, or Permit2 witness
`permitted.amount`) differs from `max_amount_required` in either direction. -/
theorem exact_amount_law :
    (∀ sent max_amount_required : U256,
      assert_enough_value sent max_amount_required = Except.ok ()
        ↔ sent = max_amount_required)
    ∧ (∀ (env : ChainEnv) (now : UnixTimestamp)
        (fnn : String → Option ChainId) (proxy : Address)
        (chain : Eip155ChainReference) (payload : PaymentPayload)
        (requirements : PaymentRequirements) (sp : Option (List Address))
        (auth : ExactEvmPayloadAuthorization),
      fnn payload.network = some (chain_to_chain_id chain) →
      fnn requirements.network = some (chain_to_chain_id chain) →
      payload.payload.permit2_authorization = none →
      payload.payload.permit2 = none →
      payload.payload.authorization = some auth →
      auth.to_ = requirements.pay_to →
      assert_time now auth.valid_after auth.valid_before = Except.ok () →
      requirements.max_amount_required
          ≤ env.balance_of requirements.asset auth.from_ →
      (assert_valid_payment env now fnn proxy chain payload requirements sp
          = Except.error PaymentVerificationError.invalidPaymentAmount
        ↔ auth.value ≠ requirements.max_amount_required))
    ∧ (∀ (env : ChainEnv) (now : UnixTimestamp)
        (fnn : String → Option ChainId) (proxy : Address)
        (chain : Eip155ChainReference) (payload : PaymentPayload)
        (requirements : PaymentRequirements) (sp : Option (List Address))
        (p : Permit2Payload),
      fnn payload.network = some (chain_to_chain_id chain) →
      fnn requirements.network = some (chain_to_chain_id chain) →
      payload.payload.permit2_authorization = none →
      payload.payload.permit2 = some p →
      p.permit_single.details.token = requirements.asset →
      spender_not_allowed sp p.permit_single.spender = false →
      assert_permit2_time now p.permit_single.sig_deadline
        p.permit_single.details.expiration = Except.ok () →
      (assert_valid_payment env now fnn proxy chain payload requirements sp
          = Except.error PaymentVerificationError.invalidPaymentAmount
        ↔ p.permit_single.details.amount ≠ requirements.max_amount_required))
    ∧ (∀ (env : ChainEnv) (now : UnixTimestamp)
        (fnn : String → Option ChainId) (proxy : Address)
        (chain : Eip155ChainReference) (payload : PaymentPayload)
        (requirements : PaymentRequirements) (sp : Option (List Address))
        (w : Permit2Authorization),
      fnn payload.network = some (chain_to_chain_id chain) →
      fnn requirements.network = some (chain_to_chain_id chain) →
      payload.payload.permit2_authorization = some w →
      w.permitted.token = requirements.asset →
      w.spender = proxy →
      w.witness.to_ = requirements.pay_to →
      (assert_valid_payment env now fnn proxy chain payload requirements sp
          = Except.error PaymentVerificationError.invalidPaymentAmount
        ↔ w.permitted.amount ≠ requirements.max_amount_required)) := by
  refine ⟨?_, ?_, ?_, ?_⟩
  · intro sent max_amount_required
    unfold assert_enough_value
    by_cases h : sent = max_amount_required
    · simp [h]
    · simp [h]
  · intro env now fnn proxy chain payload requirements sp auth
      hpn hrn hpa hp2 hauth hto htime hbal
    have hbal2 : ¬(env.balance_of requirements.asset auth.from_
        < requirements.max_amount_required) := Nat.not_lt.mpr hbal
    by_cases hv : auth.value = requirements.max_amount_required
    · simp [assert_valid_payment, hpn, hrn, hpa, hp2, hauth, hto, htime,
        assert_enough_balance, assert_enough_value, hbal2, hv]
      rcases payload.payload.signature with _ | sig <;> simp
    · simp [assert_valid_payment, hpn, hrn, hpa, hp2, hauth, hto, htime,
        assert_enough_balance, assert_enough_value, hbal2, hv]
  · intro env now fnn proxy chain payload requirements sp p
      hpn hrn hpa hp2 htok hsp htime
    by_cases hv : p.permit_single.details.amount
        = requirements.max_amount_required
    · simp [assert_valid_payment, hpn, hrn, hpa, hp2, htok, hsp, htime,
        assert_enough_value, hv]
      rcases assert_enough_balance_cases env requirements.asset p.owner
          requirements.max_amount_required with hb | hb <;> simp [hb]
    · simp [assert_valid_payment, hpn, hrn, hpa, hp2, htok, hsp, htime,
        assert_enough_value, hv]
  · intro env now fnn proxy chain payload requirements sp w
      hpn hrn hpa htok hspd hto
    by_cases hv : w.permitted.amount = requirements.max_amount_required
    · rcases assert_permit2_witness_time_cases now w.deadline
          w.witness.valid_after with ht | ht | ht
      · simp [assert_valid_payment, hpn, hrn, hpa, htok, hspd, hto, hv, ht]
        rcases assert_enough_balance_cases env requirements.asset w.from_
            requirements.max_amount_required with hb | hb <;> simp [hb]
        by_cases hal : env.allowance requirements.asset w.from_ PERMIT2_ADDRESS
            < requirements.max_amount_required <;> simp [hal]
        rcases payload.payload.signature with _ | sig <;> simp
      · simp [assert_valid_payment, hpn, hrn, hpa, htok, hspd, hto, hv, ht]
      · simp [assert_valid_payment, hpn, hrn, hpa, htok, hspd, hto, hv, ht]
    · simp [assert_valid_payment, hpn, hrn, hpa, htok, hspd, hto, hv]

/-- Sample read-only environment for closed witnesses: every balance and
allowance is 1000000. -/
def sample_env : ChainEnv :=
  { balance_of := fun _ _ => 1000000
    allowance := fun _ _ _ => 1000000
    token_name := fun _ => "BBT"
    token_version := fun _ => "1" }

/-- Sample network registry: `etherlink ↦ eip155:42793`. -/
def sample_networks : String → Option ChainId :=
  fun name => if name = "etherlink" then some ⟨"eip155", "42793"⟩ else none

/-- Sample ERC-3009 authorization declaring 555 to address 20. -/
def sample_auth : ExactEvmPayloadAuthorization :=
  { from_ := 10, to_ := 20, value := 555, valid_after := 0
    valid_before := 1000, nonce := 1 }

/-- Sample ERC-3009 payload on `etherlink` carrying `sample_auth`. -/
def sample_payload : PaymentPayload :=
  { network := "etherlink"
    payload :=
      { signature := some [1], authorization := some sample_auth
        permit2 := none, permit2_authorization := none } }

/-- Sample requirements demanding exactly 777 to address 20. -/
def sample_requirements : PaymentRequirements :=
  { network := "etherlink", pay_to := 20, asset := 30
    max_amount_required := 777, extra := none }

/-- Witness for C1: equality is accepted by `assert_enough_value`, and the
sample payload declaring 555 against a requirement of 777 fails validation
with `InvalidPaymentAmount`. -/
theorem exact_amount_law_witness :
    assert_enough_value 777 777 = Except.ok ()
    ∧ assert_valid_payment sample_env 100 sample_networks 99 42793
        sample_payload sample_requirements none
      = Except.error PaymentVerificationError.invalidPaymentAmount := by
  constructor
  · exact (exact_amount_law.1 777 777).mpr rfl
  · exact (exact_amount_law.2.1 sample_env 100 sample_networks 99 42793
      sample_payload sample_requirements none sample_auth
      rfl rfl rfl rfl rfl rfl rfl (by decide)).mpr (by decide)

/-- C2: with the chain binding passing, an ERC-3009 payload whose
`authorization.to` differs from `requirements.pay_to` fails with
`RecipientMismatch`; a Permit2 witness payload (with asset and spender checks
passing) whose `witness.to` differs from `pay_to` fails with
`RecipientMismatch`; and every successfully validated context carries the
resource's `pay_to` as the recipient of the enforced authorization. -/
theorem recipient_law :
    (∀ (env : ChainEnv) (now : UnixTimestamp)
        (fnn : String → Option ChainId) (proxy : Address)
        (chain : Eip155ChainReference) (payload : PaymentPayload)
        (requirements : PaymentRequirements) (sp : Option (List Address))
        (auth : ExactEvmPayloadAuthorization),
      fnn payload.network = some (chain_to_chain_id chain) →
      fnn requirements.network = some (chain_to_chain_id chain) →
      payload.payload.permit2_authorization = none →
      payload.payload.permit2 = none →
      payload.payload.authorization = some auth →
      auth.to_ ≠ requirements.pay_to →
      assert_valid_payment env now fnn proxy chain payload requirements sp
        = Except.error PaymentVerificationError.recipientMismatch)
    ∧ (∀ (env : ChainEnv) (now : UnixTimestamp)
        (fnn : String → Option ChainId) (proxy : Address)
        (chain : Eip155ChainReference) (payload : PaymentPayload)
        (requirements : PaymentRequirements) (sp : Option (List Address))
        (w : Permit2Authorization),
      fnn payload.network = some (chain_to_chain_id chain) →
      fnn requirements.network = some (chain_to_chain_id chain) →
      payload.payload.permit2_authorization = some w →
      w.permitted.token = requirements.asset →
      w.spender = proxy →
      w.witness.to_ ≠ requirements.pay_to →
      assert_valid_payment env now fnn proxy chain payload requirements sp
        = Except.error PaymentVerificationError.recipientMismatch)
    ∧ (∀ (env : ChainEnv) (now : UnixTimestamp)
        (fnn : String → Option ChainId) (proxy : Address)
        (chain : Eip155ChainReference) (payload : PaymentPayload)
        (requirements : PaymentRequirements) (sp : Option (List Address))
        (ctx : PaymentContext),
      assert_valid_payment env now fnn proxy chain payload requirements sp
          = Except.ok ctx →
      ctx.recipient = requirements.pay_to) := by
  refine ⟨?_, ?_, ?_⟩
  · intro env now fnn proxy chain payload requirements sp auth
      hpn hrn hpa hp2 hauth hto
    simp [assert_valid_payment, hpn, hrn, hpa, hp2, hauth, hto]
  · intro env now fnn proxy chain payload requirements sp w
      hpn hrn hpa htok hspd hto
    simp [assert_valid_payment, hpn, hrn, hpa, htok, hspd, hto]
  · intro env now fnn proxy chain payload requirements sp ctx h
    unfold assert_valid_payment at h
    rcases hpn : fnn payload.network with _ | pcid
    all_goals simp only [hpn] at h
    · cases h
    by_cases hc1 : pcid = chain_to_chain_id chain
    case neg => rw [if_pos hc1] at h; cases h
    rw [if_neg (by simp [hc1])] at h
    rcases hrn : fnn requirements.network with _ | rcid
    all_goals simp only [hrn] at h
    · cases h
    by_cases hc2 : rcid = chain_to_chain_id chain
    case neg => rw [if_pos hc2] at h; cases h
    rw [if_neg (by simp [hc2])] at h
    rcases hpa : payload.payload.permit2_authorization with _ | w
    all_goals simp only [hpa] at h
    swap
    · by_cases ht1 : w.permitted.token = requirements.asset
      case neg => rw [if_pos ht1] at h; cases h
      rw [if_neg (by simp [ht1])] at h
      by_cases hs1 : w.spender = proxy
      case neg => rw [if_pos hs1] at h; cases h
      rw [if_neg (by simp [hs1])] at h
      by_cases hw1 : w.witness.to_ = requirements.pay_to
      case neg => rw [if_pos hw1] at h; cases h
      rw [if_neg (by simp [hw1])] at h
      by_cases ha1 : w.permitted.amount = requirements.max_amount_required
      case neg => rw [if_pos ha1] at h; cases h
      rw [if_neg (by simp [ha1])] at h
      rcases htm : assert_permit2_witness_time now w.deadline
          w.witness.valid_after with e | u
      all_goals simp only [htm] at h
      · cases h
      rcases hb : assert_enough_balance env w.permitted.token w.from_
          requirements.max_amount_required with e | u2
      all_goals simp only [hb] at h
      · cases h
      by_cases hal : env.allowance w.permitted.token w.from_ PERMIT2_ADDRESS
          < requirements.max_amount_required
      case pos => rw [if_pos hal] at h; cases h
      rw [if_neg hal] at h
      rcases hsg : payload.payload.signature with _ | sig
      all_goals simp only [hsg] at h
      · cases h
      injection h with h
      subst h
      simpa [PaymentContext.recipient] using hw1
    rcases hp2 : payload.payload.permit2 with _ | p
    all_goals simp only [hp2] at h
    swap
    · by_cases ht2 : p.permit_single.details.token = requirements.asset
      case neg => rw [if_pos ht2] at h; cases h
      rw [if_neg (by simp [ht2])] at h
      cases hsp2 : spender_not_allowed sp p.permit_single.spender
      swap
      · rw [if_pos (by rw [hsp2])] at h; cases h
      rw [if_neg (by simp [hsp2])] at h
      rcases htm2 : assert_permit2_time now p.permit_single.sig_deadline
          p.permit_single.details.expiration with e | u
      all_goals simp only [htm2] at h
      · cases h
      rcases hev : assert_enough_value p.permit_single.details.amount
          requirements.max_amount_required with e | u
      all_goals simp only [hev] at h
      · cases h
      rcases hb2 : assert_enough_balance env p.permit_single.details.token
          p.owner requirements.max_amount_required with e | u
      all_goals simp only [hb2] at h
      · cases h
      injection h with h
      subst h
      simp [PaymentContext.recipient]
    rcases hauth : payload.payload.authorization with _ | auth
    all_goals simp only [hauth] at h
    · cases h
    by_cases hr1 : auth.to_ = requirements.pay_to
    case neg => rw [if_pos hr1] at h; cases h
    rw [if_neg (by simp [hr1])] at h
    rcases htm3 : assert_time now auth.valid_after auth.valid_before with e | u
    all_goals simp only [htm3] at h
    · cases h
    rcases hb3 : assert_enough_balance env requirements.asset auth.from_
        requirements.max_amount_required with e | u
    all_goals simp only [hb3] at h
    · cases h
    rcases hev3 : assert_enough_value auth.value
        requirements.max_amount_required with e | u
    all_goals simp only [hev3] at h
    · cases h
    rcases hsg3 : payload.payload.signature with _ | sig
    all_goals simp only [hsg3] at h
    · cases h
    injection h with h
    subst h
    simpa [PaymentContext.recipient] using hr1

/-- Variant of `sample_auth` paying the wrong recipient (21 instead of the
required 20). -/
def sample_auth_bad_recipient : ExactEvmPayloadAuthorization :=
  { sample_auth with to_ := 21 }

/-- Payload carrying `sample_auth_bad_recipient`. -/
def sample_payload_bad_recipient : PaymentPayload :=
  { sample_payload with
    payload :=
      { sample_payload.payload with
        authorization := some sample_auth_bad_recipient } }

/-- Variant of `sample_auth` declaring the exact required amount. -/
def sample_auth_exact : ExactEvmPayloadAuthorization :=
  { sample_auth with value := 777 }

/-- Payload carrying `sample_auth_exact`. -/
def sample_payload_exact : PaymentPayload :=
  { sample_payload with
    payload :=
      { sample_payload.payload with authorization := some sample_auth_exact } }

/-- Witness for C2: the wrong-recipient sample fails with
`RecipientMismatch`, and applying the ok-direction to a concrete successful
validation shows the produced context pays the required recipient. -/
theorem recipient_law_witness :
    assert_valid_payment sample_env 100 sample_networks 99 42793
        sample_payload_bad_recipient sample_requirements none
      = Except.error PaymentVerificationError.recipientMismatch
    ∧ (PaymentContext.eip3009 30
        { from_ := 10, to_ := 20, value := 777, valid_after := 0
          valid_before := 1000, nonce := 1, signature := [1] }
        ⟨some "BBT", some "1", some 42793, some 30⟩).recipient = 20 := by
  constructor
  · exact recipient_law.1 sample_env 100 sample_networks 99 42793
      sample_payload_bad_recipient sample_requirements none
      sample_auth_bad_recipient rfl rfl rfl rfl rfl (by decide)
  · exact recipient_law.2.2 sample_env 100 sample_networks 99 42793
      sample_payload_exact sample_requirements none _ rfl

/-- C5: for an ERC-3009 settlement whose signature classifies as EIP-6492,
if the payer has code the settler submits the `transferWithAuthorization`
call directly (to the token, with the inner signature); if the payer has no
code it submits a single Multicall3 `aggregate3` whose calls are exactly
`[(factory, factoryCalldata, allowFailure := true),
(token, transferWithAuthorization calldata, allowFailure := false)]` in that
order. -/
theorem eip6492_settlement_shape (env : SettleEnv) (prims : SigPrimitives)
    (contract : Address) (payment : ExactEvmPayment) (domain : Eip712Domain)
    (factory : Address) (factory_calldata inner original : Bytes)
    (hsig : StructuredSignature.try_from_bytes prims payment.signature
        payment.from_
        (prims.eip712_signing_hash_twa
          { from_ := payment.from_
            to_ := payment.to_
            value := payment.value
            validAfter := payment.valid_after
            validBefore := payment.valid_before
            nonce := payment.nonce } domain)
      = Except.ok (StructuredSignature.eip6492 factory factory_calldata inner
          original)) :
    ((env.get_code payment.from_).isEmpty = false →
      (settle_payment env prims contract payment domain).1
        = [(none, ⟨contract,
            Calldata.transferWithAuthorization_0 payment.from_ payment.to_
              payment.value payment.valid_after payment.valid_before
              payment.nonce inner, 1⟩)])
    ∧ ((env.get_code payment.from_).isEmpty = true →
      (settle_payment env prims contract payment domain).1
        = [(none, ⟨MULTICALL3_ADDRESS,
            Calldata.aggregate3
              [(true, factory, Calldata.raw factory_calldata),
               (false, contract,
                 Calldata.transferWithAuthorization_0 payment.from_ payment.to_
                   payment.value payment.valid_after payment.valid_before
                   payment.nonce inner)], 1⟩)]) := by
  have hext : SignedMessage.extract prims payment domain
      = Except.ok
        { address := payment.from_
          hash := prims.eip712_signing_hash_twa
            { from_ := payment.from_
              to_ := payment.to_
              value := payment.value
              validAfter := payment.valid_after
              validBefore := payment.valid_before
              nonce := payment.nonce } domain
          signature := StructuredSignature.eip6492 factory factory_calldata
            inner original } := by
    unfold SignedMessage.extract
    simp only [hsig]
  constructor
  · intro hcode
    simp [settle_payment, hext, is_contract_deployed, hcode]
  · intro hcode
    simp [settle_payment, hext, is_contract_deployed, hcode]

/-- Sample settlement environment: no code anywhere, every submission
succeeds with transaction hash 42. -/
def sample_settle_env : SettleEnv :=
  { get_code := fun _ => []
    send_transaction := fun _ => { status := true, transaction_hash := 42 }
    send_transaction_from := fun _ _ =>
      { status := true, transaction_hash := 42 } }

/-- Sample ERC-3009 payment whose signature bytes are the bare EIP-6492 magic
suffix (so `sample_prims` classifies it as EIP-6492 with factory 7). -/
def sample_payment_6492 : ExactEvmPayment :=
  { from_ := 10, to_ := 20, value := 777, valid_after := 0
    valid_before := 1000, nonce := 1, signature := EIP6492_MAGIC_SUFFIX }

/-- Witness for C5: with empty payer code the concrete settlement submits
exactly the two-entry Multicall3. -/
theorem eip6492_settlement_shape_witness :
    (settle_payment sample_settle_env sample_prims 30 sample_payment_6492
        ⟨some "BBT", some "1", some 42793, some 30⟩).1
      = [(none, ⟨MULTICALL3_ADDRESS,
          Calldata.aggregate3
            [(true, 7, Calldata.raw [8]),
             (false, 30,
               Calldata.transferWithAuthorization_0 10 20 777 0 1000 1 [9])],
          1⟩)] :=
  (eip6492_settlement_shape sample_settle_env sample_prims 30
    sample_payment_6492 ⟨some "BBT", some "1", some 42793, some 30⟩
    7 [8] [9] EIP6492_MAGIC_SUFFIX rfl).2 rfl

/-- C6: in every settlement path a submitted transaction whose receipt has
`status = false` makes the settler fail with `TransactionReverted` carrying
that receipt's transaction hash; and the Permit2 path submits the permit and
the transferFrom as two meta-transactions from `payment.spender`, aborting
with the permit's transaction hash — without submitting the transferFrom —
when the permit receipt reverts. -/
theorem settlement_revert_law :
    (∀ (env : SettleEnv) (prims : SigPrimitives) (contract : Address)
        (payment : ExactEvmPayment) (domain : Eip712Domain) (t : SubmittedTx),
      t ∈ (settle_payment env prims contract payment domain).1 →
      (env.receipt_of t).status = false →
      (settle_payment env prims contract payment domain).2
        = Except.error (Eip155ExactError.transactionReverted
          (env.receipt_of t).transaction_hash))
    ∧ (∀ (env : SettleEnv) (contract : Address)
        (payment : Permit2WitnessPayment) (t : SubmittedTx),
      t ∈ (settle_payment_permit2_witness env contract payment).1 →
      (env.receipt_of t).status = false →
      (settle_payment_permit2_witness env contract payment).2
        = Except.error (Eip155ExactError.transactionReverted
          (env.receipt_of t).transaction_hash))
    ∧ (∀ (env : SettleEnv) (contract : Address) (payment : Permit2Payment),
      (∀ t ∈ (settle_payment_permit2 env contract payment).1,
        t.1 = some payment.spender)
      ∧ (∀ (ps : PermitSingle),
        build_permit2_single_call payment = Except.ok ps →
        ∀ (ta : Nat), permit2_amount payment.transfer_amount = Except.ok ta →
        (((env.send_transaction_from
            ⟨contract, Calldata.permit payment.owner ps payment.signature, 1⟩
            payment.spender).status = false →
          (settle_payment_permit2 env contract payment).1
            = [(some payment.spender,
                ⟨contract, Calldata.permit payment.owner ps
                  payment.signature, 1⟩)]
          ∧ (settle_payment_permit2 env contract payment).2
            = Except.error (Eip155ExactError.transactionReverted
              (env.send_transaction_from
                ⟨contract, Calldata.permit payment.owner ps
                  payment.signature, 1⟩ payment.spender).transaction_hash))
        ∧ (∀ t ∈ (settle_payment_permit2 env contract payment).1,
            (env.receipt_of t).status = false →
            (settle_payment_permit2 env contract payment).2
              = Except.error (Eip155ExactError.transactionReverted
                (env.receipt_of t).transaction_hash))))) := by
  refine ⟨?_, ?_, ?_⟩
  · intro env prims contract payment domain t ht hst
    rcases hext : SignedMessage.extract prims payment domain with e | sm
    · simp [settle_payment, hext] at ht
    · rcases hsg : sm.signature with ⟨f, fc, inner, orig⟩ | sg | sigb
      · by_cases hdep : is_contract_deployed env payment.from_
        · simp [settle_payment, hext, hsg, hdep] at ht ⊢
          subst ht
          simp [SettleEnv.receipt_of] at hst ⊢
          simp [hst]
        · simp [settle_payment, hext, hsg, hdep] at ht ⊢
          subst ht
          simp [SettleEnv.receipt_of] at hst ⊢
          simp [hst]
      · simp [settle_payment, hext, hsg] at ht ⊢
        subst ht
        simp [SettleEnv.receipt_of] at hst ⊢
        simp [hst]
      · simp [settle_payment, hext, hsg] at ht ⊢
        subst ht
        simp [SettleEnv.receipt_of] at hst ⊢
        simp [hst]
  · intro env contract payment t ht hst
    simp [settle_payment_permit2_witness] at ht ⊢
    subst ht
    simp [SettleEnv.receipt_of] at hst ⊢
    simp [hst]
  · intro env contract payment
    constructor
    · intro t ht
      rcases hps : build_permit2_single_call payment with e | ps
      · simp [settle_payment_permit2, hps] at ht
      · rcases hta : permit2_amount payment.transfer_amount with e | ta
        · simp [settle_payment_permit2, hps, hta] at ht
        · by_cases hpr : (env.send_transaction_from
              ⟨contract, Calldata.permit payment.owner ps payment.signature, 1⟩
              payment.spender).status = false
          · simp [settle_payment_permit2, hps, hta, hpr] at ht
            simp [ht]
          · simp [settle_payment_permit2, hps, hta, hpr] at ht
            rcases ht with ht | ht <;> simp [ht]
    · intro ps hps ta hta
      constructor
      · intro hpr
        constructor
        · simp [settle_payment_permit2, hps, hta, hpr]
        · simp [settle_payment_permit2, hps, hta, hpr]
      · intro t ht hst
        by_cases hpr : (env.send_transaction_from
            ⟨contract, Calldata.permit payment.owner ps payment.signature, 1⟩
            payment.spender).status = false
        · simp [settle_payment_permit2, hps, hta, hpr] at ht ⊢
          subst ht
          simp [SettleEnv.receipt_of] at hst ⊢
        · simp [settle_payment_permit2, hps, hta, hpr] at ht ⊢
          rcases ht with ht | ht
          · subst ht
            simp [SettleEnv.receipt_of] at hst
            exact absurd hst hpr
          · subst ht
            simp [SettleEnv.receipt_of] at hst ⊢
            simp [hst]

/-- Settlement environment in which every submission reverts with
transaction hash 13. -/
def sample_reverting_env : SettleEnv :=
  { get_code := fun _ => []
    send_transaction := fun _ => { status := false, transaction_hash := 13 }
    send_transaction_from := fun _ _ =>
      { status := false, transaction_hash := 13 } }

/-- Sample in-range Permit2 AllowanceTransfer payment. -/
def sample_permit2_payment : Permit2Payment :=
  { owner := 1, spender := 2, pay_to := 3, token := 4, amount := 5
    expiration := 6, nonce := 7, sig_deadline := 8, signature := [9]
    transfer_amount := 5 }

/-- Witness for C6: with a reverting permit receipt, the Permit2 settlement
aborts with the permit transaction hash having submitted only the permit
meta-transaction, from the payment's spender. -/
theorem settlement_revert_law_witness :
    (settle_payment_permit2 sample_reverting_env 50 sample_permit2_payment).2
      = Except.error (Eip155ExactError.transactionReverted 13)
    ∧ (settle_payment_permit2 sample_reverting_env 50 sample_permit2_payment).1
      = [(some 2, ⟨50, Calldata.permit 1 ⟨⟨4, 5, 6, 7⟩, 2, 8⟩ [9], 1⟩)] := by
  have h := ((settlement_revert_law.2.2 sample_reverting_env 50
      sample_permit2_payment).2 ⟨⟨4, 5, 6, 7⟩, 2, 8⟩ rfl 5 rfl).1 rfl
  exact ⟨h.2, h.1⟩

/-- Predicate transcribing the claim's address format: a `0x`-prefixed
40-hex-digit string. -/
def spec_0x40hex_format (s : String) : Bool :=
  s.toList.take 2 == ['0', 'x'] && s.length == 42
    && (s.toList.drop 2).all is_ascii_hexdigit

/-- C7 counterexample: a `0x`-prefixed 42-character address made of 40 `z`s
is not in 0x-prefixed 40-hex-digit format, yet an enabled lists-provider gate
with empty lists accepts the request instead of failing with
`ComplianceFailed`: `normalize_address` checks only the prefix and length of
`0x`-prefixed inputs, never that the digits are hexadecimal. -/
theorem compliance_format_counterexample :
    spec_0x40hex_format "0xzzzzzzzzzzzzzzzzzzzzzzzzzzzzzzzzzzzzzzzz" = false
    ∧ ((ComplianceGate.mk true [] [] ComplianceProvider.lists
          none).validate_for_request
        (fun _ => Except.ok ChainalysisResult.allowed) 0 "verify"
        (some "0xzzzzzzzzzzzzzzzzzzzzzzzzzzzzzzzzzzzzzzzz") none).2
      = Except.ok () := by
  exact ⟨by decide, rfl⟩

/-- C7 (amended): an enabled gate rejects a payer or payee that
`normalize_address` refuses (neither a 42-character `0x`-prefixed string nor
a bare 40-hex-digit string, after trimming and lowercasing) with
`ComplianceFailed` naming the invalid address; a normalized address on the
deny-list is rejected before the allow-list is consulted; a non-empty
allow-list not containing the address rejects; and with the lists provider
and both lists empty, normalizable parties are accepted. -/
theorem compliance_gate_law :
    (∀ (gate : ComplianceGate) (query : ChainalysisQuery) (now_ms : Nat)
        (rt payer_raw : String) (payee : Option String),
      gate.enabled = true →
      normalize_address payer_raw = none →
      (gate.validate_for_request query now_ms rt (some payer_raw) payee).2
        = Except.error (PaymentVerificationError.complianceFailed
          "payer has an invalid address format"))
    ∧ (∀ (gate : ComplianceGate) (query : ChainalysisQuery) (now_ms : Nat)
        (rt payee_raw : String),
      gate.enabled = true →
      normalize_address payee_raw = none →
      (gate.validate_for_request query now_ms rt none (some payee_raw)).2
        = Except.error (PaymentVerificationError.complianceFailed
          "payee has an invalid address format"))
    ∧ (∀ (gate : ComplianceGate) (query : ChainalysisQuery) (now_ms : Nat)
        (rt payer_raw : String) (payee : Option String) (a : String),
      gate.enabled = true →
      normalize_address payer_raw = some a →
      a ∈ gate.deny_list →
      (gate.validate_for_request query now_ms rt (some payer_raw) payee).2
        = Except.error (PaymentVerificationError.complianceFailed
          ("payer is denied by compliance policy: " ++ a)))
    ∧ (∀ (gate : ComplianceGate) (query : ChainalysisQuery) (now_ms : Nat)
        (rt payer_raw : String) (payee : Option String) (a : String),
      gate.enabled = true →
      normalize_address payer_raw = some a →
      a ∉ gate.deny_list →
      gate.allow_list ≠ [] →
      a ∉ gate.allow_list →
      (gate.validate_for_request query now_ms rt (some payer_raw) payee).2
        = Except.error (PaymentVerificationError.complianceFailed
          ("payer is not in compliance allow-list: " ++ a)))
    ∧ (∀ (query : ChainalysisQuery) (now_ms : Nat)
        (rt payer_raw payee_raw : String) (path : Option String)
        (a b : String),
      normalize_address payer_raw = some a →
      normalize_address payee_raw = some b →
      ((ComplianceGate.mk true [] [] ComplianceProvider.lists
          path).validate_for_request query now_ms rt (some payer_raw)
          (some payee_raw)).2 = Except.ok ()) := by
  refine ⟨?_, ?_, ?_, ?_, ?_⟩
  · intro gate query now_ms rt payer_raw payee hen hnorm
    simp [ComplianceGate.validate_for_request, hen, hnorm]
  · intro gate query now_ms rt payee_raw hen hnorm
    simp [ComplianceGate.validate_for_request,
      ComplianceGate.validate_payee_phase, hen, hnorm]
  · intro gate query now_ms rt payer_raw payee a hen hnorm hdeny
    have hany : (gate.deny_list.any fun denied => denied == a) = true := by
      rw [List.any_eq_true]
      exact ⟨a, hdeny, by simp⟩
    simp [ComplianceGate.validate_for_request,
      ComplianceGate.validate_party, hen, hnorm, hany]
  · intro gate query now_ms rt payer_raw payee a hen hnorm hnodeny hne hnoallow
    have hany : (gate.deny_list.any fun denied => denied == a) = false := by
      rw [List.any_eq_false]
      intro d hd
      simp only [beq_iff_eq]
      intro hda
      exact hnodeny (hda ▸ hd)
    have hanyallow : (gate.allow_list.any fun allowed => allowed == a)
        = false := by
      rw [List.any_eq_false]
      intro d hd
      simp only [beq_iff_eq]
      intro hda
      exact hnoallow (hda ▸ hd)
    have hempty : gate.allow_list.isEmpty = false := by
      cases hl : gate.allow_list with
      | nil => exact absurd hl hne
      | cons x xs => rfl
    simp [ComplianceGate.validate_for_request,
      ComplianceGate.validate_party, hen, hnorm, hany, hanyallow, hempty]
  · intro query now_ms rt payer_raw payee_raw path a b hnorma hnormb
    simp [ComplianceGate.validate_for_request,
      ComplianceGate.validate_payee_phase,
      ComplianceGate.validate_party, hnorma, hnormb]

/-- Witness for C7: a whitespace-bearing junk payer fails as an invalid
address; a denied payer is rejected even though it is also allow-listed
(deny-list first); an allow-list miss is rejected; empty lists accept. -/
theorem compliance_gate_law_witness :
    ((ComplianceGate.mk true ["0xaaaaaaaaaaaaaaaaaaaaaaaaaaaaaaaaaaaaaaaa"]
        ["0xaaaaaaaaaaaaaaaaaaaaaaaaaaaaaaaaaaaaaaaa"]
        ComplianceProvider.lists none).validate_for_request
      (fun _ => Except.ok ChainalysisResult.allowed) 0 "verify"
      (some "0xAAAAAAAAAAAAAAAAAAAAAAAAAAAAAAAAAAAAAAAA") none).2
      = Except.error (PaymentVerificationError.complianceFailed
        ("payer is denied by compliance policy: "
          ++ "0xaaaaaaaaaaaaaaaaaaaaaaaaaaaaaaaaaaaaaaaa"))
    ∧ ((ComplianceGate.mk true [] [] ComplianceProvider.lists
        none).validate_for_request
      (fun _ => Except.ok ChainalysisResult.allowed) 0 "verify"
      (some "junk") none).2
      = Except.error (PaymentVerificationError.complianceFailed
        "payer has an invalid address format") := by
  constructor
  · exact compliance_gate_law.2.2.1
      (ComplianceGate.mk true ["0xaaaaaaaaaaaaaaaaaaaaaaaaaaaaaaaaaaaaaaaa"]
        ["0xaaaaaaaaaaaaaaaaaaaaaaaaaaaaaaaaaaaaaaaa"]
        ComplianceProvider.lists none)
      (fun _ => Except.ok ChainalysisResult.allowed) 0 "verify"
      "0xAAAAAAAAAAAAAAAAAAAAAAAAAAAAAAAAAAAAAAAA" none
      "0xaaaaaaaaaaaaaaaaaaaaaaaaaaaaaaaaaaaaaaaa" rfl (by decide) (by decide)
  · exact compliance_gate_law.1
      (ComplianceGate.mk true [] [] ComplianceProvider.lists none)
      (fun _ => Except.ok ChainalysisResult.allowed) 0 "verify" "junk" none
      rfl (by decide)

/-- C8 counterexample: an enabled gate given a malformed payer address
returns `ComplianceFailed` without emitting any audit record — zero records,
not exactly one. -/
theorem compliance_audit_counterexample :
    ((ComplianceGate.mk true [] [] ComplianceProvider.lists
        none).validate_for_request
      (fun _ => Except.ok ChainalysisResult.allowed) 0 "verify"
      (some "not-an-address") none).1 = ([] : List ComplianceAuditEvent)
    ∧ ((ComplianceGate.mk true [] [] ComplianceProvider.lists
        none).validate_for_request
      (fun _ => Except.ok ChainalysisResult.allowed) 0 "verify"
      (some "not-an-address") none).2
      = Except.error (PaymentVerificationError.complianceFailed
        "payer has an invalid address format") := by
  exact ⟨rfl, rfl⟩

/-- C8 (amended): every `validate_for_request` call emits exactly one audit
record — except when a party address fails normalization, in which case the
call fails with `ComplianceFailed` naming the invalid address and emits no
record at all. -/
theorem compliance_audit_law (gate : ComplianceGate)
    (query : ChainalysisQuery) (now_ms : Nat) (rt : String)
    (payer payee : Option String) :
    (gate.validate_for_request query now_ms rt payer payee).1.length = 1
    ∨ ((gate.validate_for_request query now_ms rt payer payee).1 = []
      ∧ ((gate.validate_for_request query now_ms rt payer payee).2
          = Except.error (PaymentVerificationError.complianceFailed
            "payer has an invalid address format")
        ∨ (gate.validate_for_request query now_ms rt payer payee).2
          = Except.error (PaymentVerificationError.complianceFailed
            "payee has an invalid address format"))) := by
  by_cases hen : gate.enabled = false
  · left
    simp [ComplianceGate.validate_for_request, hen]
  · rcases payer with _ | praw
    · rcases payee with _ | eraw
      · left
        simp [ComplianceGate.validate_for_request,
          ComplianceGate.validate_payee_phase, hen]
      · rcases hnorm : normalize_address eraw with _ | ea
        · right
          simp [ComplianceGate.validate_for_request,
            ComplianceGate.validate_payee_phase, hen, hnorm]
        · rcases hp : gate.validate_party query "payee" ea with f | r
          · left
            simp [ComplianceGate.validate_for_request,
              ComplianceGate.validate_payee_phase, hen, hnorm, hp]
          · left
            simp [ComplianceGate.validate_for_request,
              ComplianceGate.validate_payee_phase, hen, hnorm, hp]
    · rcases hnorm : normalize_address praw with _ | pa
      · right
        simp [ComplianceGate.validate_for_request, hen, hnorm]
      · rcases hp : gate.validate_party query "payer" pa with f | r
        · left
          simp [ComplianceGate.validate_for_request, hen, hnorm, hp]
        · rcases payee with _ | eraw
          · left
            simp [ComplianceGate.validate_for_request,
              ComplianceGate.validate_payee_phase, hen, hnorm, hp]
          · rcases hnorm2 : normalize_address eraw with _ | ea
            · right
              simp [ComplianceGate.validate_for_request,
                ComplianceGate.validate_payee_phase, hen, hnorm, hp, hnorm2]
            · rcases hp2 : gate.validate_party query "payee" ea with f2 | r2
              · left
                simp [ComplianceGate.validate_for_request,
                  ComplianceGate.validate_payee_phase, hen, hnorm, hp, hnorm2,
                  hp2]
              · left
                simp [ComplianceGate.validate_for_request,
                  ComplianceGate.validate_payee_phase, hen, hnorm, hp, hnorm2,
                  hp2]

end X402
